import Mathlib

/-! Material Layering Dialog: a shallow embedding.

The dialog (`MaterialLayeringDialog.cpp`, `ShaderModel.cpp`) is a GUI controller over engine
services (the material database, the Perforce client, message boxes).  Each member function is
embedded as a pure function: the engine services it reads are fields of `World`, the answers the
user gives to modal prompts are arguments, and the calls it makes on the engine and the toolkit
are returned, in order, as a list of `Event`s.  Log output (`BSWARNING`), cursor scopes,
changelist look-up, the set-up of widgets and the last save directory are left out.  The
functions of the document life cycle (`Open`, `Close`, the property editor, the buttons, the
texture sync) are embedded as transformers of the members, `DialogState`.
-/

namespace MaterialLayering

/-! ## Handles, pointers and arrays -/

/-- Numeric value of a `BSComponentDB2::ID` / `BSMaterial::LayeredMaterialID` handle. -/
abbrev ID := Nat

/-- The null handle `BSComponentDB2::NullIDC`. -/
def NullIDC : ID := 0

/-- Accessor `QValid()` of a handle. -/
def QValid (id : ID) : Bool := id != NullIDC

/-- A `bool*`: `none` is `nullptr`, `some a` is the address of a `bool` cell. -/
abbrev BoolPtr := Option Nat

/-- The `bool` cells that `bool*` arguments may point at, by address. -/
abbrev Mem := Nat → Bool

/-- The store `*p = v`. -/
def Mem.store (m : Mem) (a : Nat) (v : Bool) : Mem := fun b => if b = a then v else m b

/-- Conversion of a `bool` constant to a pointer, as in `p = false`: `false` is the null pointer
constant. -/
def BoolPtr.ofFalse : BoolPtr := none

/-- Result of `Find` on a `BSTArray`: an element index, or `FINDRESULT_NOT_FOUND`. -/
inductive FindResult where
  | index (i : Nat)
  | FINDRESULT_NOT_FOUND
  deriving DecidableEq, Repr

/-- Linear search `Find(array, value)`: the index of the first equal element. -/
def Find (xs : List String) (x : String) : FindResult :=
  if xs.indexOf x < xs.length then .index (xs.indexOf x) else .FINDRESULT_NOT_FOUND

/-- Contextual conversion of a `Find` result to `bool` (`if (Find(..))`, `!Find(..)`): an integer
is true when it is not zero.  The not-found marker differs from every index, so also from 0. -/
def FindResult.toBool : FindResult → Bool
  | .index 0 => false
  | .index (_ + 1) => true
  | .FINDRESULT_NOT_FOUND => true

/-- Membership test `IsInArray(array, value)`. -/
def IsInArray (xs : List String) (x : String) : Bool := xs.contains x

/-- In-place removal `RemoveAllEqual(array, value)`. -/
def RemoveAllEqual (xs : List String) (x : String) : List String := xs.filter (fun y => y != x)

/-- Result of a traversal callback (`BSContainer::ForEachResult`). -/
inductive ForEachResult where
  | Continue
  | Stop
  | SkipChildren
  deriving DecidableEq, Repr

/-- Buttons of a `QMessageBox`. -/
inductive Button where
  | Yes
  | No
  | Cancel
  deriving DecidableEq, Repr

/-! ## Engine services and effects -/

/-- Action recorded by Perforce for an opened file (`BSPerforce::FileInfo::QAction`). -/
inductive P4Action where
  | ACTION_ADD
  | ACTION_EDIT
  | ACTION_DELETE
  deriving DecidableEq, Repr

/-- The part of `BSPerforce::FileInfo` the dialog reads. -/
structure FileInfo where
  QAction : P4Action
  QHasOtherCheckouts : Bool
  deriving DecidableEq, Repr

/-- A material-swap form (`BGSLayeredMaterialSwap`): editor id, form id, and the override
material of each of its entries. -/
structure SwapForm where
  editorID : String
  formID : Nat
  Entries : List ID
  deriving DecidableEq, Repr

/-- The counters `SharedTools::ShaderModelState` (three `uint16_t`). -/
structure ShaderModelState where
  LayersInUse : Nat
  LayerCount : Nat
  BlenderCount : Nat
  deriving DecidableEq, Repr

/-- What `GetNativeValue` finds in a node of the property editor: a layer handle, a blender
handle, or a value of another type. -/
inductive NativeValue where
  | LayerID (id : ID)
  | BlenderID (id : ID)
  | other
  deriving DecidableEq, Repr

/-- What `CalculateShaderModelState` reads of a node of the property editor: whether it has a
model (`QModel()`) and its native value. -/
structure PropertyNode where
  QModel : Bool
  native : NativeValue
  deriving DecidableEq, Repr

/-- The engine state the dialog reads.  Every field stands for one service call. -/
structure World where
  /-- Member `UseVersionControl`. -/
  UseVersionControl : Bool
  /-- INI setting `bUseVersionControl`. -/
  bUseVersionControl : Bool
  /-- Whether `QPerforce` yields a connection. -/
  spperforce : Bool
  /-- Member `EditedMaterialID`. -/
  EditedMaterialID : ID
  /-- Member `EditedMaterialIsModified`. -/
  EditedMaterialIsModified : Bool
  /-- Every layered material of the database, in `ForEachLayeredMaterial` order. -/
  materials : List ID
  /-- The call `BSMaterial::GetDataParent`; `NullIDC` when there is none. -/
  dataParent : ID → ID
  /-- The call `BSMaterial::GetShaderModelRootMaterial`. -/
  shaderModelRoot : ID → ID
  /-- The call `BSMaterial::GetName`. -/
  name : ID → String
  /-- The call `GetCheckedOutFiles(this, PerforceSyncPath)`. -/
  checkedOutFiles : List String
  /-- The call `GatherReferencedFiles`: `none` when it returns false. -/
  GatherReferencedFiles : ID → Option (List String)
  /-- The call `GetAllModifiedFiles`. -/
  modifiedObjects : List ID
  /-- The call `GetObjectFilename`: `none` when it returns false. -/
  GetObjectFilename : ID → Option String
  /-- The call `GetObjectByFilename`; `NullIDC` when there is none. -/
  GetObjectByFilename : String → ID
  /-- The call `SharedTools::MakePerforcePath`. -/
  MakePerforcePath : String → String
  /-- The call `SharedTools::MakeLocalPath`. -/
  MakeLocalPath : String → String
  /-- Whether `SharedTools::CheckoutFiles` succeeds on a set of files. -/
  CheckoutFiles : List String → Bool
  /-- Whether `SharedTools::CheckinFiles` succeeds (false: cancelled or failed). -/
  CheckinFiles : List String → Bool
  /-- The call `spperforce->GetFileInfo`: `none` when it returns false. -/
  GetFileInfo : String → Option FileInfo
  /-- The call `QtPerforceFileInfoCache::GetFileInfo`: `none` when it returns false. -/
  cacheFileInfo : String → Option FileInfo
  /-- Whether `spperforce->AddFile` succeeds. -/
  AddFile : String → Bool
  /-- Whether `BSDeleteFile` succeeds. -/
  BSDeleteFile : String → Bool
  /-- Whether the file exists on disk (`BSaccess(file, 0) != -1`). -/
  fileExists : String → Bool
  /-- Whether `BSMaterial::Save` succeeds. -/
  Save : ID → Bool
  /-- The call `FindReferencedTextureFiles`: the texture set, in iteration order. -/
  FindReferencedTextureFiles : ID → List String
  /-- Forms of type `LMSW_ID`, in `ForEachFormOfType` order. -/
  swapForms : List SwapForm
  /-- The files `AddMaterialSnapshotsToFileList` appends for a material. -/
  snapshotFiles : ID → List String
  /-- The file name of the shader model of a material
  (`BSMaterial::GetLayeredMaterialShaderModel(id).FileName`). -/
  shaderModelFileName : ID → String
  /-- The call `SharedTools::GetShaderModelLocked` on a shader-model file name. -/
  GetShaderModelLocked : String → Bool
  /-- Whether `BSMaterial::SaveAs` succeeds. -/
  SaveAs : ID → String → Bool
  /-- The call `CloneFileObjects`: the handle of the clone. -/
  CloneFileObjects : ID → String → ID
  /-- The call `SharedTools::ValidateNewMaterialName`: `none` when the name is valid, the
  message it sets otherwise. -/
  ValidateNewMaterialName : String → Option String
  /-- The call `SourceTextureDepotPathValid()`. -/
  SourceTextureDepotPathValid : Bool
  /-- INI setting `sPerforceSourceTextureDepotPath`. -/
  sPerforceSourceTextureDepotPath : String
  /-- The call `CSPerforce::Perforce::QInstance().QPerforceAvailable()`. -/
  QPerforceAvailable : Bool
  /-- The call `BSMaterial::IsShaderModelRootMaterial`. -/
  IsShaderModelRootMaterial : ID → Bool
  /-- The call `SharedTools::GetShaderModelRuleProcessor` on a shader-model name: the handle of
  the rule processor, `none` when there is none. -/
  GetShaderModelRuleProcessor : String → Option Nat
  /-- The nodes of the tree the property editor builds for a material
  (`ui.treeViewPropEditor->QTreeNode()` after `AddEditedObject`), in `ApplyRecursively` order. -/
  editorNodes : ID → List PropertyNode
  /-- The call `pBakeOptionsDialog->ShouldSyncMapsOnTexSync()`. -/
  ShouldSyncMapsOnTexSync : Bool
  /-- The call `FindReferencedTextureFiles(id, textures, true)` of `OnSyncTextures`. -/
  texturesToSync : ID → List String
  /-- The baked maps `AddMaterialSnapshotsToFileList(id, options, false, maps)` collects. -/
  bakedMaps : ID → List String

/-- Calls made on the toolkit and the engine, in program order. -/
inductive Event where
  | warning (text : String)
  | information (text : String)
  | critical (text : String)
  | question (text : String)
  | NotifyObjectModified (id : ID)
  | CheckoutFiles (files : List String)
  | CheckinFiles (files : List String)
  | browserRefresh
  | showSwitchShaderModelDialog (material : ID)
  | ChangeShaderModel (material root : ID)
  | undoStackClear
  | UpdateDocumentModified
  | OnRefreshPropertyEditor
  | MigrateShaderModelProperties (root : ID)
  | SaveAll (materials : List ID)
  | RequestReparentObject (target parent : ID)
  | Save (material : ID)
  | SaveAs (material : ID) (file : String)
  | RenameAll (material : ID) (name : String)
  | ReloadMaterial (material : ID)
  | RevertFile (file : String)
  | MarkForDelete (file : String)
  | AddFile (file : String)
  | BSDeleteFile (file : String)
  | UpdateCacheAsync (files : List String)
  | RequestDestroyFileObjects (object : ID)
  | Flush
  | NewUntitledMaterial
  | Close
  | Open (material : ID)
  | SaveAsDialog
  | CloneFileObjects (material : ID) (file : String)
  | getText (text : String)
  deriving DecidableEq, Repr

/-! ## Data children -/

/-- Whether `o` has `root` among its data ancestors, following at most `fuel` parent links. -/
def isDataDescendant (w : World) (root : ID) : Nat → ID → Bool
  | 0, _ => false
  | fuel + 1, o =>
    let p := w.dataParent o
    p != NullIDC && (p == root || isDataDescendant w root fuel p)

/-- The objects `BSComponentDB2::TraverseDataChildren` visits from `root`: the materials
derived, directly or not, from `root`.  The root itself is not among them
(`SwitchMaterialToShaderModel` counts them as "child materials" and adds the material itself
to the array afterwards). -/
def dataChildren (w : World) (root : ID) : List ID :=
  w.materials.filter (fun o => isDataDescendant w root w.materials.length o)

/-- The call `BSMaterial::GetHasDataChildren` / `BSComponentDB2::HasDataChildren`. -/
def GetHasDataChildren (w : World) (m : ID) : Bool := !(dataChildren w m).isEmpty

/-- The traversal `BSComponentDB2::TraverseDataChildren(interface, root, f)` over an explicit
visit order: `f` is called on each object with the state so far, until it answers `Stop`;
the result is the last answer (`Continue` when every call answered `Continue`). -/
def TraverseDataChildren {σ : Type} (f : σ → ID → σ × ForEachResult) :
    List ID → σ → σ × ForEachResult
  | [], s => (s, .Continue)
  | o :: os, s =>
    match f s o with
    | (s1, .Stop) => (s1, .Stop)
    | (s1, _) => TraverseDataChildren f os s1

/-! ## CheckoutCurrentFiles -/

/-- What `CheckoutCurrentFiles` leaves behind: the returned array, the memory, the calls. -/
structure CheckoutOutcome where
  files : List String
  mem : Mem
  events : List Event

/-- Embedding of `MaterialLayeringDialog::CheckoutCurrentFiles(aVerbose, apOutAllCheckedOut)`.
The argument of the `filesToCheckout` constructor is a capacity: the array starts empty. -/
def CheckoutCurrentFiles (w : World) (aVerbose : Bool) (apOutAllCheckedOut : BoolPtr) (mem : Mem) :
    CheckoutOutcome :=
  -- if (apOutAllCheckedOut != nullptr) { apOutAllCheckedOut = false; }
  let apOutAllCheckedOut : BoolPtr :=
    if apOutAllCheckedOut != none then BoolPtr.ofFalse else apOutAllCheckedOut
  let filesCheckedOut := w.checkedOutFiles
  match (if QValid w.EditedMaterialID then w.GatherReferencedFiles w.EditedMaterialID else none) with
  | some referencedFiles =>
    -- Convert referencedFiles array
    let filesToCheckout := (referencedFiles.map w.MakePerforcePath).filter
      (fun file => Find filesCheckedOut file == .FINDRESULT_NOT_FOUND)
    -- Also add any files that were previously modified
    let filesToCheckout := filesToCheckout ++ (w.modifiedObjects.filterMap (fun dirtyObject =>
      match w.GetObjectFilename dirtyObject with
      | some relFile =>
        let absFile := w.MakePerforcePath relFile
        if Find filesCheckedOut absFile == .FINDRESULT_NOT_FOUND then some absFile else none
      | none => none))
    if filesToCheckout.length == 0 then
      let msg := if aVerbose then
        [Event.information ("All " ++ toString referencedFiles.length ++ " file(s) already checked out")]
        else []
      { files := filesCheckedOut, mem := mem, events := msg ++ [Event.browserRefresh] }
    else if w.CheckoutFiles filesToCheckout || !w.UseVersionControl then
      let mem := match apOutAllCheckedOut with
        | some a => mem.store a true
        | none => mem
      { files := filesCheckedOut ++ filesToCheckout, mem := mem,
        events := [Event.CheckoutFiles filesToCheckout, Event.browserRefresh] }
    else
      { files := filesCheckedOut, mem := mem,
        events := [Event.CheckoutFiles filesToCheckout, Event.browserRefresh] }
  | none =>
    let msg := if aVerbose then [Event.warning "Can't find any files to check out"] else []
    { files := filesCheckedOut, mem := mem, events := msg ++ [Event.browserRefresh] }

/-! ## SwitchMaterialToShaderModel -/

/-- The call `NotifyObjectModified`: the object is reported by `GetAllModifiedFiles`
afterwards. -/
def World.NotifyObjectModified (w : World) (material : ID) : World :=
  { w with modifiedObjects := w.modifiedObjects ++ [material] }

/-- Text of the confirmation of `SwitchMaterialToShaderModel`. -/
def switchQuestion : String :=
  "Are you sure you want to switch the Material Shader Model ?\nSome settings may not carry over to a different shader model.\nThis change cannot be undone."

/-- Text of the warning shown when the checkout did not cover every file. -/
def notAllCheckedOutMsg : String :=
  "Not all files could be checked out.\nWe can't switch the shader model unless all materials involved are checked out."

/-- Embedding of `MaterialLayeringDialog::SwitchMaterialToShaderModel(aMaterialToProcess)`.
`answer` is the button pressed in the confirmation box; `accepted` is `some root` when the
user accepts the shader-model selection dialog (if it is shown) with `root` selected, and the
body of the `accepted` handler is then run. -/
def SwitchMaterialToShaderModel (w : World) (aMaterialToProcess : ID) (answer : Button)
    (accepted : Option ID) : List Event :=
  let affectedMaterials : List ID :=
    if GetHasDataChildren w aMaterialToProcess then
      (TraverseDataChildren (fun (acc : List ID) aObject => (acc ++ [aObject], .Continue))
        (dataChildren w aMaterialToProcess) []).1
    else []
  -- bool ok = QMessageBox::warning(...) == QMessageBox::Yes;  (ok lives at address 0)
  let okAddr : Nat := 0
  let mem : Mem := Mem.store (fun _ => false) okAddr (answer == .Yes)
  let message := switchQuestion ++
    (if GetHasDataChildren w aMaterialToProcess then
      "\nIMPORTANT: This will affect " ++ toString affectedMaterials.length ++
        " child materials as well, and you must take care to submit these in the same changelist.\n"
     else "")
  let ev0 := [Event.warning message]
  let (affectedMaterials, mem, ev1) :=
    if mem okAddr then
      let affectedMaterials := affectedMaterials ++ [w.EditedMaterialID]
      let w1 := affectedMaterials.foldl World.NotifyObjectModified w
      let r := CheckoutCurrentFiles w1 true (some okAddr) mem
      let ev := affectedMaterials.map Event.NotifyObjectModified ++ r.events
      if !r.mem okAddr then (affectedMaterials, r.mem, ev ++ [Event.warning notAllCheckedOutMsg])
      else (affectedMaterials, r.mem, ev)
    else (affectedMaterials, mem, [])
  -- Guard against changing shader model for material that have full inheritance active.
  let ev2 :=
    if mem okAddr then
      [Event.showSwitchShaderModelDialog aMaterialToProcess] ++
      (match accepted with
       | some shaderModelRootMaterial =>
         [Event.ChangeShaderModel aMaterialToProcess shaderModelRootMaterial,
          Event.undoStackClear, Event.UpdateDocumentModified, Event.OnRefreshPropertyEditor,
          Event.MigrateShaderModelProperties shaderModelRootMaterial,
          Event.SaveAll affectedMaterials, Event.OnRefreshPropertyEditor] ++
         (if !affectedMaterials.all w.Save then
            [Event.critical "Some materials failed to save\nCheck the log for details\nYou're recommended to revert all open changes now"]
          else [])
       | none => [])
    else []
  ev0 ++ ev1 ++ ev2

/-! ## ReparentMaterial -/

/-- What `ReparentMaterial` returns and the calls it makes. -/
structure ReparentOutcome where
  success : Bool
  events : List Event
  deriving DecidableEq, Repr

/-- The text `cannotReparentMsg` of `ReparentMaterial`. -/
def cannotReparentMsg (w : World) (aTargetMaterial aParentMaterial : ID) : String :=
  "Can't reparent " ++ w.name aTargetMaterial ++ " to " ++ w.name aParentMaterial ++ " "

/-- Text of the shader-model warning of `ReparentMaterial`. -/
def differentShaderModelMsg (w : World) (aTargetMaterial aParentMaterial : ID) : String :=
  cannotReparentMsg w aTargetMaterial aParentMaterial ++
    " because its using a different shader model.\nTo remedy this you can right click -> Switch Shader Model in the bottom left panel"

/-- Text of the circular-link error of `ReparentMaterial`. -/
def circularLinkMsg (w : World) (aTargetMaterial aParentMaterial : ID) : String :=
  cannotReparentMsg w aTargetMaterial aParentMaterial ++
    " because it would create a circular inheritance link"

/-- Text of the confirmation question of `ReparentMaterial`. -/
def reparentQuestion (numChildMaterials : Nat) : String :=
  (if numChildMaterials > 0 then
    "Reparenting this material affects " ++ toString numChildMaterials ++
      " derived materials\nCheck the log for the list of files affected.\n\n"
   else "") ++ "Are you sure you want to reparent your material?"

/-- Embedding of `MaterialLayeringDialog::ReparentMaterial(apParent, aTargetMaterial,
aParentMaterial, aUserConfirmationPrompt)`.  `answer` is the button pressed in the confirmation
question, when it is asked. -/
def ReparentMaterial (w : World) (aTargetMaterial aParentMaterial : ID)
    (aUserConfirmationPrompt : Bool) (answer : Button) : ReparentOutcome :=
  let targetMaterialShaderModelRoot := w.shaderModelRoot aTargetMaterial
  -- Are we reparenting to a Shader Model Root Material, breaking inheritance in the process ?
  let isBreakingInheritance := targetMaterialShaderModelRoot == aParentMaterial
  let (success, events) : Bool × List Event :=
    if !isBreakingInheritance && targetMaterialShaderModelRoot != w.shaderModelRoot aParentMaterial then
      (false, [Event.warning (differentShaderModelMsg w aTargetMaterial aParentMaterial)])
    else
      -- Iterate all data children (of aParentMaterial), counting them
      let (numChildMaterials, parentIsDataChild) :=
        TraverseDataChildren
          (fun (numChildMaterials : Nat) aChildObject =>
            (numChildMaterials + 1,
              if aChildObject == aParentMaterial then ForEachResult.Stop else ForEachResult.Continue))
          (dataChildren w aParentMaterial) 0
      if parentIsDataChild != .Continue then
        (false, [Event.critical (circularLinkMsg w aTargetMaterial aParentMaterial)])
      else
        let (proceedWithOperation, ask) : Bool × List Event :=
          if aUserConfirmationPrompt then
            (answer == .Yes, [Event.question (reparentQuestion numChildMaterials)])
          else (true, [])
        if proceedWithOperation then
          if !aUserConfirmationPrompt then
            (w.Save aTargetMaterial,
              ask ++ [Event.RequestReparentObject aTargetMaterial aParentMaterial,
                Event.Save aTargetMaterial])
          else
            (false, ask ++ [Event.RequestReparentObject aTargetMaterial aParentMaterial])
        else (false, ask)
  -- Success, check to refresh Edited Material if its was the target material
  if success && aTargetMaterial == w.EditedMaterialID then
    { success := success, events := events ++ [Event.OnRefreshPropertyEditor] }
  else { success := success, events := events }

/-- Whether an event is a `RequestReparentObject` call. -/
def Event.isReparentRequest : Event → Bool
  | .RequestReparentObject _ _ => true
  | _ => false

/-! ## Delete -/

/-- The `%08X` conversion of `SPrintF`: upper-case hexadecimal, zero-padded to 8 digits. -/
def hex8 (n : Nat) : String :=
  let digits := (Nat.toDigits 16 n).map Char.toUpper
  String.mk (List.replicate (8 - digits.length) '0' ++ digits)

/-- Embedding of `FindFormDependenciesForLayeredMaterial(aLayeredMaterialID)`. -/
def FindFormDependenciesForLayeredMaterial (w : World) (aLayeredMaterialID : ID) : List String :=
  w.swapForms.foldl (fun modelsUsingMaterial swap =>
    swap.Entries.foldl (fun modelsUsingMaterial OverrideMaterial =>
      if OverrideMaterial == aLayeredMaterialID then
        let modelStr := "Material Swap form '" ++ swap.editorID ++ "' " ++ hex8 swap.formID
        if !IsInArray modelsUsingMaterial modelStr then modelsUsingMaterial ++ [modelStr]
        else modelsUsingMaterial
      else modelsUsingMaterial) modelsUsingMaterial) []

/-- The message loops of `Delete`: `for (item : items) { if (index++ >= 10) { message += "...\n";
break; } message += item + suffix; }`. -/
def appendFirstTen (suffix : String) : List String → Nat → String → String
  | [], _, message => message
  | item :: rest, index, message =>
    if index ≥ 10 then message ++ "...\n"
    else appendFirstTen suffix rest (index + 1) (message ++ item ++ suffix)

/-- The text `deleteConfirmMessage` of `Delete`.  The test is on the INI setting
`bUseVersionControl`, not on the member `UseVersionControl`, and its branch calls
`spperforce->GetFileInfo`: without a connection the null pointer is dereferenced and the
function stops, which is the result `none`. -/
def deleteConfirmMessage (w : World) (aFile : String) : Option String :=
  if w.bUseVersionControl then
    if w.spperforce then
      let perforceFile := match w.GetFileInfo aFile with
        | some fileInfo => fileInfo.QAction != .ACTION_ADD
        | none => false
      some ("Are you sure you would like to delete this " ++
        (if perforceFile then "file from Perforce?" else "local file?") ++ "\n\n" ++
        (if perforceFile then w.MakePerforcePath aFile else aFile))
    else none
  else some ("Are you sure you would like to delete " ++ aFile ++ " ?")

/-- Header of the message listing the forms that use a material. -/
def restrictedHeader : String :=
  "Cannot delete the layered material because it is being used by:\n\n"

/-- Text shown when the material has data children. -/
def dataChildrenMsg : String :=
  "Cannot delete the layered material because it has data children."

/-- Text shown when no object is stored under the file. -/
def objectNotFoundMsg : String :=
  "Cannot delete because object for material layer could not be found."

/-- The part of `Delete` that collects the sub files of `object` (from "Collect the files for
this layered material to be deleted" up to, not including, `AddMaterialSnapshotsToFileList`).
`wasCanceled i` is the answer of `progress.wasCanceled()` at the texture of index `i`. -/
def Delete_collectSubFiles (w : World) (object : ID) (wasCanceled : Nat → Bool) : List String :=
  let filesToDelete : List String := []
  -- Find referenced textures
  let textures := w.FindReferencedTextureFiles object
  let filesToDelete :=
    if !textures.isEmpty then
      (textures.foldl (fun (st : Nat × List String) texture =>
        (st.1 + 1, if !wasCanceled st.1 then st.2 ++ [texture] else st.2)) (0, filesToDelete)).2
    else filesToDelete
  -- Add the files for its sub objects.
  let filesToDelete :=
    match w.GatherReferencedFiles object with
    | some subObjectFiles =>
      subObjectFiles.foldl (fun filesToDelete subObjFile =>
        let perforceSubObjectFileName := w.MakePerforcePath subObjFile
        if !(Find filesToDelete perforceSubObjectFileName).toBool then
          filesToDelete ++ [perforceSubObjectFileName]
        else filesToDelete) filesToDelete
    | none => filesToDelete
  -- Iterate each layered material and see if any of the files are referenced by it.
  w.materials.foldl (fun filesToDelete aIteratedMaterialID =>
    if aIteratedMaterialID != object then
      -- Check its referenced textures and remove any found from the delete list.
      let iterObjectTextures := w.FindReferencedTextureFiles aIteratedMaterialID
      let filesToDelete :=
        if iterObjectTextures.length != 0 then
          iterObjectTextures.foldl (fun filesToDelete objTexture =>
            if IsInArray filesToDelete objTexture then RemoveAllEqual filesToDelete objTexture
            else filesToDelete) filesToDelete
        else filesToDelete
      -- Check its sub objects and remove any found from the delete list.
      match w.GatherReferencedFiles aIteratedMaterialID with
      | some iterSubObjectFiles =>
        iterSubObjectFiles.foldl (fun filesToDelete iterSubObjFile =>
          let perforceSubObjFileName := w.MakePerforcePath iterSubObjFile
          if (Find filesToDelete perforceSubObjFileName).toBool then
            RemoveAllEqual filesToDelete perforceSubObjFileName
          else filesToDelete) filesToDelete
      | none => filesToDelete
    else filesToDelete) filesToDelete

/-- The arrays `localFilesToDelete` and `p4FilesToDelete` of `Delete`, with the calls made
while they are filled. -/
structure DeleteLists where
  localFilesToDelete : List String
  p4FilesToDelete : List String
  events : List Event

/-- Text of the warning listing the local files that could not be deleted. -/
def failedToDeleteMsg (failedToDelete : List String) : String :=
  failedToDelete.foldl (fun message file => message ++ file ++ "\\n")
    "Failed to delete local files: " ++
    "; Please ensure that the files are not read only or used by another process."

/-- The body of the second `if (!deletionRestricted)` of `Delete`: collect the sub files, ask
about them, delete or mark the files and destroy the object.  Returns `deleteHappened` and the
calls made. -/
def Delete_unrestricted (w : World) (aFile : String) (object : ID) (deletionRestricted : Bool)
    (wasCanceled : Nat → Bool) (answerSubFiles : Button) : Bool × List Event :=
  let filesToDelete := Delete_collectSubFiles w object wasCanceled
  -- Delete the associated icon should one exist
  let filesToDelete := filesToDelete ++ w.snapshotFiles object
  -- Handle deleting the layered material root file and sub files we collected.
  let st : DeleteLists := ⟨[], [], []⟩
  let st : DeleteLists :=
    if !filesToDelete.isEmpty then
      let message := appendFirstTen "\n\n" filesToDelete 0
        "Would you like to delete its sub files too?\n\n"
      let st := { st with events := st.events ++ [Event.warning message] }
      if answerSubFiles == .Yes then
        if w.UseVersionControl then
          filesToDelete.foldl (fun st delFile =>
            match w.cacheFileInfo delFile with
            | some p4FileInfo =>
              if p4FileInfo.QAction == .ACTION_ADD then
                -- Revert sub file marked for add.
                { st with events := st.events ++ [Event.RevertFile delFile]
                          localFilesToDelete := st.localFilesToDelete ++ [delFile] }
              else
                -- Mark sub file for delete.
                { st with events := st.events ++ [Event.MarkForDelete delFile]
                          p4FilesToDelete := st.p4FilesToDelete ++ [delFile] }
            | none =>
              { st with localFilesToDelete := st.localFilesToDelete ++ [delFile] })
            { st with events := st.events ++ [Event.UpdateCacheAsync filesToDelete] }
        else { st with localFilesToDelete := st.localFilesToDelete ++ filesToDelete }
      else st
    else st
  if !deletionRestricted then
    let (checkinCanceled, st) : Bool × DeleteLists :=
      match (if w.UseVersionControl then w.GetFileInfo aFile else none) with
      | some fileInfo =>
        if fileInfo.QAction == .ACTION_ADD then
          -- Revert layered material root marked for add.
          (false, { st with events := st.events ++ [Event.RevertFile aFile]
                            localFilesToDelete := st.localFilesToDelete ++ [aFile] })
        else if fileInfo.QHasOtherCheckouts then
          (true, { st with events := st.events ++ [Event.warning
            "Cannot delete this material.  It is checked out by someone else."] })
        else
          -- Mark layered material root for delete.
          (false, { st with events := st.events ++ [Event.MarkForDelete aFile]
                            p4FilesToDelete := st.p4FilesToDelete ++ [aFile] })
      | none =>
        (false, { st with localFilesToDelete := st.localFilesToDelete ++ [aFile] })
    let (checkinCanceled, st) : Bool × DeleteLists :=
      if !checkinCanceled && st.p4FilesToDelete.length > 0 then
        (!w.CheckinFiles st.p4FilesToDelete,
          { st with events := st.events ++ [Event.CheckinFiles st.p4FilesToDelete] })
      else (checkinCanceled, st)
    if checkinCanceled then
      (false, st.events ++ st.p4FilesToDelete.map (fun p4File =>
        if (w.GetFileInfo p4File).isSome then Event.RevertFile p4File
        else Event.AddFile p4File))
    else
      let failedToDelete := st.localFilesToDelete.filter (fun f => !w.BSDeleteFile f)
      (true, st.events ++ st.localFilesToDelete.map Event.BSDeleteFile ++
        (if !failedToDelete.isEmpty then [Event.warning (failedToDeleteMsg failedToDelete)]
         else []) ++
        [Event.RequestDestroyFileObjects object, Event.Flush, Event.browserRefresh])
  else (false, st.events)

/-- Embedding of `MaterialLayeringDialog::Delete(aFile)`.  `answer` is the button pressed in the
delete confirmation, `wasCanceled` the state of the texture progress dialog at each texture,
`answerSubFiles` the button pressed in the "delete its sub files too?" question.  The result
is `none` when the function stops on the null Perforce connection, before any call. -/
def Delete (w : World) (aFile : String) (answer : Button) (wasCanceled : Nat → Bool)
    (answerSubFiles : Button) : Option (List Event) :=
  if w.spperforce || !w.UseVersionControl then
    match deleteConfirmMessage w aFile with
    | none => none
    | some deleteConfirmMessage =>
      let ev := [Event.warning deleteConfirmMessage]
      if answer == .Yes then
        -- Convert to relative path
        let object := w.GetObjectByFilename (w.MakeLocalPath aFile)
        if object != NullIDC then
          let deletingCurrentDocument := object == w.EditedMaterialID
          -- Check for data children.
          let deletionRestricted := GetHasDataChildren w object
          let (deletionRestricted, ev1) : Bool × List Event :=
            if !deletionRestricted then
              -- Check for TESModel dependencies.
              let dependencies := FindFormDependenciesForLayeredMaterial w object
              if !dependencies.isEmpty then
                (true, [Event.information (appendFirstTen "\n" dependencies 0 restrictedHeader)])
              else (deletionRestricted, [])
            else (deletionRestricted, [Event.information dataChildrenMsg])
          let (deleteHappened, ev2) : Bool × List Event :=
            if !deletionRestricted then
              Delete_unrestricted w aFile object deletionRestricted wasCanceled answerSubFiles
            else (false, [])
          -- If we delete the currently edited document, create a new one.
          some (ev ++ ev1 ++ ev2 ++
            (if deleteHappened && deletingCurrentDocument then [Event.NewUntitledMaterial]
             else []))
        else some (ev ++ [Event.information objectNotFoundMsg])
      else some ev
  else some []

/-- Whether an event destroys the material object or deletes, reverts or marks-for-delete a
file. -/
def Event.isDestructive : Event → Bool
  | .RequestDestroyFileObjects _ => true
  | .BSDeleteFile _ => true
  | .RevertFile _ => true
  | .MarkForDelete _ => true
  | _ => false

/-- The claim about the sub files of `Delete`, in the words of the specification: `f` is a
referenced texture of the deleted material or the Perforce path of one of its sub-object files,
and no other layered material references `f` as a texture or as a sub-object file. -/
def Delete_expectedSubFile (w : World) (object : ID) (f : String) : Bool :=
  let referencedBy (m : ID) : Bool :=
    (w.FindReferencedTextureFiles m).contains f ||
      (((w.GatherReferencedFiles m).getD []).map w.MakePerforcePath).contains f
  referencedBy object && !(w.materials.any (fun m => m != object && referencedBy m))

/-- Concatenation of message lines. -/
def concatLines : List String → String
  | [] => ""
  | l :: ls => l ++ concatLines ls

/-- The outer loop of `FindFormDependenciesForLayeredMaterial`, from any start array. -/
def formsFold (id : ID) (forms : List SwapForm) (acc : List String) : List String :=
  forms.foldl (fun modelsUsingMaterial swap =>
    swap.Entries.foldl (fun modelsUsingMaterial OverrideMaterial =>
      if OverrideMaterial == id then
        let modelStr := "Material Swap form '" ++ swap.editorID ++ "' " ++ hex8 swap.formID
        if !IsInArray modelsUsingMaterial modelStr then modelsUsingMaterial ++ [modelStr]
        else modelsUsingMaterial
      else modelsUsingMaterial) modelsUsingMaterial) acc

/-! ## MigrateShaderModelProperties (ShaderModel.cpp) -/

/-- The edit state of a property node (`ModelNode::QState`). -/
inductive NodeState where
  | Normal
  | ReadOnly
  | Hidden
  deriving DecidableEq, Repr

/-- A node of a property-editor tree (`QtPropertyEditor::ModelNode`): its data path, state,
whether it has a data parent, its value, the value of its data parent, the default value of its
data type, and its child nodes.  Values are opaque codes. -/
inductive ModelNode where
  | mk (dataPath : String) (QState : NodeState) (QHasDataParent : Bool)
      (value parentValue defaultValue : Nat) (children : List ModelNode)

/-- Accessor `GetDataPath()`. -/
def ModelNode.GetDataPath : ModelNode → String
  | .mk dataPath _ _ _ _ _ _ => dataPath

/-- Accessor `QState()`. -/
def ModelNode.QState : ModelNode → NodeState
  | .mk _ QState _ _ _ _ _ => QState

/-- Accessor `QHasDataParent()`. -/
def ModelNode.QHasDataParent : ModelNode → Bool
  | .mk _ _ QHasDataParent _ _ _ _ => QHasDataParent

/-- Accessor `GetParentValue()`. -/
def ModelNode.GetParentValue : ModelNode → Nat
  | .mk _ _ _ _ parentValue _ _ => parentValue

/-- The default value `BSReflection::Any(*GetDataType())` of the node's type. -/
def ModelNode.defaultValue : ModelNode → Nat
  | .mk _ _ _ _ _ defaultValue _ => defaultValue

mutual
/-- The search `ModelNode::FindDataPath(path)`: the first node, in depth-first order, that has
the data path. -/
def ModelNode.FindDataPath (path : String) : ModelNode → Option ModelNode
  | .mk dataPath QState QHasDataParent value parentValue defaultValue children =>
    if dataPath == path then
      some (.mk dataPath QState QHasDataParent value parentValue defaultValue children)
    else FindDataPathList path children
/-- The search `FindDataPath` over a list of child nodes. -/
def FindDataPathList (path : String) : List ModelNode → Option ModelNode
  | [] => none
  | c :: cs =>
    match c.FindDataPath path with
    | some n => some n
    | none => FindDataPathList path cs
end

/-- A write made on a property node. -/
inductive PropertyCall where
  | SetValue (v : Nat)
  | SetNativeValue (v : Nat)
  deriving DecidableEq, Repr

/-- One call of the `ForEach` callback: the node it was called on (data path, data parent,
parent and default values) and the write it made on the node, if any. -/
structure Visit where
  dataPath : String
  QHasDataParent : Bool
  parentValue : Nat
  defaultValue : Nat
  call : Option PropertyCall
  deriving DecidableEq, Repr

/-- The lambda passed to `ForEach` in `MigrateShaderModelProperties`: the write it makes on
`arChild`, and its result. -/
def migrateCallback (destRootNode arChild : ModelNode) : Option PropertyCall × ForEachResult :=
  let srcPropertyDataPath := arChild.GetDataPath
  -- Process all properties except root which is the LayeredMaterial ID document.
  if !srcPropertyDataPath.isEmpty then
    let (propertyIsValid, result) : Bool × ForEachResult :=
      match destRootNode.FindDataPath srcPropertyDataPath with
      | some pnodeInDestination => (pnodeInDestination.QState != .ReadOnly, .Continue)
      | none => (false, .SkipChildren)  -- Skip children if node is not found.
    -- Revert invalid properties to new parents default value.
    if !propertyIsValid then
      if arChild.QHasDataParent then (some (.SetValue arChild.GetParentValue), result)
      else (some (.SetNativeValue arChild.defaultValue), result)
    else (none, result)
  else (none, .Continue)

/-- The record of one callback call on a node. -/
def visitOf (f : ModelNode → Option PropertyCall × ForEachResult) (node : ModelNode) : Visit :=
  { dataPath := node.GetDataPath, QHasDataParent := node.QHasDataParent,
    parentValue := node.GetParentValue, defaultValue := node.defaultValue, call := (f node).1 }

/-- The value of a node after a write. -/
def applyCall (value : Nat) : Option PropertyCall → Nat
  | some (.SetValue v) => v
  | some (.SetNativeValue v) => v
  | none => value

mutual
/-- The traversal `ModelNode::ForEach(f)`: `f` is called on the node, then, unless it answers
`SkipChildren` or `Stop`, on its children in order; `Stop` ends the traversal.  Returns the
tree after the writes, the calls made, and whether the traversal was stopped. -/
def ModelNode.ForEach (f : ModelNode → Option PropertyCall × ForEachResult) :
    ModelNode → ModelNode × List Visit × Bool
  | .mk dataPath QState QHasDataParent value parentValue defaultValue children =>
    let node := ModelNode.mk dataPath QState QHasDataParent value parentValue defaultValue children
    let value1 := applyCall value (f node).1
    match (f node).2 with
    | .Continue =>
      match ForEachList f children with
      | (children1, log, stopped) =>
        (.mk dataPath QState QHasDataParent value1 parentValue defaultValue children1,
          visitOf f node :: log, stopped)
    | .SkipChildren =>
      (.mk dataPath QState QHasDataParent value1 parentValue defaultValue children,
        [visitOf f node], false)
    | .Stop =>
      (.mk dataPath QState QHasDataParent value1 parentValue defaultValue children,
        [visitOf f node], true)
/-- The traversal `ForEach` over a list of child nodes. -/
def ForEachList (f : ModelNode → Option PropertyCall × ForEachResult) :
    List ModelNode → List ModelNode × List Visit × Bool
  | [] => ([], [], false)
  | c :: cs =>
    match c.ForEach f with
    | (c1, log, true) => (c1 :: cs, log, true)
    | (c1, log, false) =>
      match ForEachList f cs with
      | (cs1, log1, stopped) => (c1 :: cs1, log ++ log1, stopped)
end

/-- Embedding of `SharedTools::MigrateShaderModelProperties(arMaterialPropertyEditorRootNode,
aShaderModelRootMaterial)`.  `destRootNode` is the property tree built for
`aShaderModelRootMaterial` after its shader-model processor and the delete processor have been
applied.  Returns the source tree after the writes and the callback calls, in order. -/
def MigrateShaderModelProperties (arMaterialPropertyEditorRootNode destRootNode : ModelNode) :
    ModelNode × List Visit :=
  let r := arMaterialPropertyEditorRootNode.ForEach (migrateCallback destRootNode)
  (r.1, r.2.1)

/-- The write that reverts a property: to the data parent's value, or to the default value of
the type when there is no data parent. -/
def revertCall (v : Visit) : PropertyCall :=
  if v.QHasDataParent then .SetValue v.parentValue else .SetNativeValue v.defaultValue

/-! ## Save, SaveAs and PromptToSaveChanges -/

/-- The file chosen in the "Save As" dialog, with what Qt derives from it: the path relative to
the current directory, the base name, and whether it is the file the dialog started on. -/
structure SaveAsChoice where
  absoluteFilename : String
  filename : String
  baseName : String
  sameAsStartPath : Bool
  deriving DecidableEq, Repr

/-- Embedding of `MaterialLayeringDialog::EditedFileExists()`. -/
def EditedFileExists (w : World) : Bool :=
  QValid w.EditedMaterialID &&
    (match w.GetObjectFilename w.EditedMaterialID with
     | some filename => w.fileExists filename
     | none => false)

/-- Embedding of `MaterialLayeringDialog::SaveAs()`.  `choice` is the file chosen in the
"Save As" dialog, `none` when the dialog is cancelled. -/
def SaveAs (w : World) (choice : Option SaveAsChoice) : Bool × List Event :=
  let smFileName := w.shaderModelFileName w.EditedMaterialID
  let materialLocked := w.GetShaderModelLocked smFileName
  if materialLocked then
    (false, [Event.warning ("You cannot save a copy of this material.\nShader Model : " ++
      smFileName ++ " is locked.")])
  else
    let existent :=
      match w.GetObjectFilename w.EditedMaterialID with
      | some oldFilename => w.fileExists oldFilename
      | none => false
    let oldName := w.name w.EditedMaterialID
    match choice with
    | some c =>
      let savedObject := w.EditedMaterialID
      let fileWasMoved := existent && !c.sameAsStartPath
      let (savedObject, ev1) : ID × List Event :=
        if fileWasMoved then
          (w.CloneFileObjects w.EditedMaterialID c.filename,
            [Event.CloneFileObjects w.EditedMaterialID c.filename, Event.Flush])
        else (savedObject, [])
      let ev2 := if c.baseName != oldName then [Event.RenameAll savedObject c.baseName] else []
      let result := w.SaveAs savedObject c.filename
      (result, [Event.SaveAsDialog] ++ ev1 ++ ev2 ++
        [Event.SaveAs savedObject c.filename, Event.CheckoutFiles [c.absoluteFilename]] ++
        (if fileWasMoved then [Event.Open savedObject] else [Event.OnRefreshPropertyEditor]))
    | none => (false, [Event.SaveAsDialog])

/-- Embedding of `MaterialLayeringDialog::Save()`. -/
def Save (w : World) (choice : Option SaveAsChoice) : Bool × List Event :=
  -- If there is no file on disk, ask the user to choose a location for it
  if EditedFileExists w then
    -- Always check out the files first
    let filesCheckedOut := CheckoutCurrentFiles w false none (fun _ => false)
    if filesCheckedOut.files.length != 0 then
      -- Save the active material
      let saved := w.Save w.EditedMaterialID
      (saved, filesCheckedOut.events ++ [Event.Save w.EditedMaterialID] ++
        (if saved then []
         else [Event.critical
           ("Failed to save " ++ (w.GetObjectFilename w.EditedMaterialID).getD "")]) ++
        [Event.OnRefreshPropertyEditor])
    else (false, filesCheckedOut.events)
  else SaveAs w choice

/-- Embedding of `MaterialLayeringDialog::PromptToSaveChanges()`.  `answer` is the button
pressed in the "Save unsaved changes" box, when it is shown. -/
def PromptToSaveChanges (w : World) (answer : Button) (choice : Option SaveAsChoice) :
    Bool × List Event :=
  if w.EditedMaterialIsModified then
    -- Prompt the user to save
    let ask := [Event.information
      ("Save unsaved changes to " ++ w.name w.EditedMaterialID ++ "?")]
    match answer with
    | .Yes =>
      let r := Save w choice
      (r.1, ask ++ r.2)
    | .No =>
      -- Reload the material and derived object
      (true, ask ++ [Event.ReloadMaterial w.EditedMaterialID, Event.OnRefreshPropertyEditor])
    | .Cancel => (false, ask)
  else (true, [])

/-! ## Rename -/

/-- Whether a character separates path components. -/
def isPathSeparator (c : Char) : Bool := c == '\\' || c == '/'

/-- Modelled from the spec: `FilePathUtilities::SplitPath(path, root, name)` is not in the
sources; it is taken to split a path into its directory and its file name, at the last path
separator.  Returns `(root, name)`. -/
def SplitPath (path : String) : String × String :=
  let reversed := path.toList.reverse
  let name := (reversed.takeWhile (fun c => !isPathSeparator c)).reverse
  let root := ((reversed.dropWhile (fun c => !isPathSeparator c)).drop 1).reverse
  (String.mk root, String.mk name)

/-- Modelled from the spec: `FilePathUtilities::SplitExt(path, root, ext)` is not in the
sources; it is taken to split a path into the path without its extension and the extension,
dot included, at the last dot of the file name.  Returns `(root, ext)`. -/
def SplitExt (path : String) : String × String :=
  let reversed := path.toList.reverse
  let tail := reversed.takeWhile (fun c => !(c == '.') && !isPathSeparator c)
  let rest := reversed.dropWhile (fun c => !(c == '.') && !isPathSeparator c)
  match rest with
  | '.' :: root => (String.mk root.reverse, String.mk ('.' :: tail.reverse))
  | _ => (path, "")

/-- The comparison `a.compare(b, Qt::CaseInsensitive) != 0`. -/
def differsCaseInsensitive (a b : String) : Bool :=
  a.toList.map Char.toLower != b.toList.map Char.toLower

/-- One pass of the body of the `while (loop)` of `Rename` for a valid new name: rename, save
under the new file, update Perforce or delete the old file, and undo the rename when it is
cancelled. -/
def Rename_apply (w : World) (aFile oldLocalFilePath : String) (object : ID)
    (newName : String) : List Event :=
  -- Construct the new file path.
  let (root, oldName) := SplitPath oldLocalFilePath
  let newLocalFilePath := root ++ ("\\" ++ newName)
  let (_, ext) := SplitExt oldLocalFilePath
  let newLocalFilePath := newLocalFilePath ++ ext
  -- Rename the layered material and all of its sub-objects.
  let renamedMaterial := object
  let ev := [Event.RenameAll renamedMaterial newName,
    -- Requests to save the changes.
    Event.SaveAs object newLocalFilePath]
  let (cancelRename, ev1) : Bool × List Event :=
    if w.UseVersionControl then
      let oldP4FilePath := w.MakePerforcePath aFile
      let perforceFile := match w.GetFileInfo oldP4FilePath with
        | some fileInfo => fileInfo.QAction != .ACTION_ADD
        | none => false
      if perforceFile then
        let p4FilesToSubmit := [oldP4FilePath, newLocalFilePath]
        (!w.CheckinFiles p4FilesToSubmit,
          [Event.RevertFile oldLocalFilePath, Event.MarkForDelete oldLocalFilePath,
           Event.AddFile newLocalFilePath, Event.CheckinFiles p4FilesToSubmit])
      else if w.AddFile newLocalFilePath then
        (false, [Event.AddFile newLocalFilePath, Event.RevertFile oldLocalFilePath,
          Event.BSDeleteFile oldLocalFilePath])
      else (false, [Event.AddFile newLocalFilePath])
    else if !w.BSDeleteFile oldLocalFilePath then
      (true, [Event.BSDeleteFile oldLocalFilePath,
        Event.warning "Unable to rename file. Make sure that it is not read only"])
    else (false, [Event.BSDeleteFile oldLocalFilePath])
  let ev2 :=
    if cancelRename then
      -- Restore old name.
      (if w.UseVersionControl then [Event.RevertFile oldLocalFilePath] else []) ++
      [Event.RenameAll renamedMaterial oldName, Event.SaveAs object oldLocalFilePath] ++
      -- Delete the renamed version.
      (if w.UseVersionControl then [Event.RevertFile newLocalFilePath] else []) ++
      [Event.BSDeleteFile newLocalFilePath]
    else if w.EditedMaterialID == renamedMaterial then
      -- Reopen the file.
      [Event.Close, Event.Open renamedMaterial]
    else []
  ev ++ ev1 ++ ev2 ++ [Event.Flush, Event.browserRefresh]

/-- The `while (loop)` of `Rename`.  Each element of `attempts` is one answer to the "New Name"
input dialog: `none` when it is cancelled, the entered name otherwise.  The loop ends at the
first cancelled, unchanged or valid answer. -/
def Rename_loop (w : World) (aFile oldLocalFilePath : String) (object : ID)
    (oldNameQString : String) : List (Option String) → List Event
  | [] => []
  | attempt :: rest =>
    let ask := [Event.getText oldNameQString]
    match attempt with
    | some newName =>
      -- Skip doing anything if the name is unchanged.
      if differsCaseInsensitive oldNameQString newName then
        match w.ValidateNewMaterialName newName with
        | none => ask ++ Rename_apply w aFile oldLocalFilePath object newName
        | some message =>
          ask ++ [Event.warning message] ++
            Rename_loop w aFile oldLocalFilePath object oldNameQString rest
      else ask
    | none => ask  -- User cancelled

/-- Embedding of `MaterialLayeringDialog::Rename(aFile)`.  `saveAnswer` and `choice` are the
answers to `PromptToSaveChanges`, `attempts` the answers to the "New Name" input dialog. -/
def Rename (w : World) (aFile : String) (saveAnswer : Button) (choice : Option SaveAsChoice)
    (attempts : List (Option String)) : List Event :=
  let noPerforce := [Event.information "Cannot rename.  Please check Perforce settings."]
  if w.spperforce || !w.UseVersionControl then
    let prompt := PromptToSaveChanges w saveAnswer choice
    if prompt.1 then
      let oldLocalFilePath := w.MakeLocalPath aFile
      let object := w.GetObjectByFilename oldLocalFilePath
      let prevName := w.name object
      let oldNameQString := prevName
      if object != NullIDC then
        prompt.2 ++ Rename_loop w aFile oldLocalFilePath object oldNameQString attempts
      else
        prompt.2 ++ [Event.information
          "Cannot rename because object for material layer could not be found."]
    else prompt.2 ++ noPerforce
  else noPerforce

/-! ## Undo commands (MaterialLayeringUndoCommand, MakeNewUndoCommand) -/

/-- A `void*`, by address. -/
abbrev VoidPtr := Nat

/-- The type `MaterialLayeringDialog::UndoCallback`, `unique_function<void(void*)>`: a closure
that acts on the state `σ` it captures. -/
abbrev UndoCallback (σ : Type) := VoidPtr → σ → σ

/-- The interface `QUndoCommand`: the virtual functions `undo()` and `redo()`. -/
structure QUndoCommand (σ : Type) where
  undo : σ → σ
  redo : σ → σ

/-- The toolkit's `QUndoStack`: the commands pushed so far and the index of the next command
to redo. -/
structure QUndoStack (σ : Type) where
  commands : List (QUndoCommand σ)
  index : Nat

/-- The call `QUndoStack::clear()`: drops every command. -/
def QUndoStack.clear {σ : Type} (_stack : QUndoStack σ) : QUndoStack σ :=
  { commands := [], index := 0 }

/-- The call `QUndoStack::push(cmd)`, as the toolkit documents it: the commands that could be
redone are dropped, `cmd` becomes the last command, and `cmd` is executed by calling its
`redo()`. -/
def QUndoStack.push {σ : Type} (stack : QUndoStack σ) (cmd : QUndoCommand σ) (s : σ) :
    QUndoStack σ × σ :=
  ({ commands := stack.commands.take stack.index ++ [cmd], index := stack.index + 1 },
    cmd.redo s)

/-- The members of `MaterialLayeringUndoCommand`. -/
structure MaterialLayeringUndoCommand (σ : Type) where
  UndoAction : UndoCallback σ
  RedoAction : UndoCallback σ
  pData : VoidPtr

/-- Embedding of the constructor `MaterialLayeringUndoCommand(aUndoAction, aRedoAction,
apData, apParent)`. -/
def MaterialLayeringUndoCommand.new {σ : Type} (aUndoAction aRedoAction : UndoCallback σ)
    (apData : VoidPtr) : MaterialLayeringUndoCommand σ :=
  { UndoAction := aUndoAction, RedoAction := aRedoAction, pData := apData }

/-- Embedding of `MaterialLayeringUndoCommand::undo()`. -/
def MaterialLayeringUndoCommand.undo {σ : Type} (c : MaterialLayeringUndoCommand σ) (s : σ) : σ :=
  c.UndoAction c.pData s

/-- Embedding of `MaterialLayeringUndoCommand::redo()`. -/
def MaterialLayeringUndoCommand.redo {σ : Type} (c : MaterialLayeringUndoCommand σ) (s : σ) : σ :=
  c.RedoAction c.pData s

/-- The command seen through its base class: `undo` and `redo` are the overrides. -/
def MaterialLayeringUndoCommand.toQUndoCommand {σ : Type} (c : MaterialLayeringUndoCommand σ) :
    QUndoCommand σ :=
  { undo := c.undo, redo := c.redo }

/-- Embedding of `MaterialLayeringDialog::MakeNewUndoCommand(aUndoAction, aRedoAction,
apData)`: returns the new command, the stack after the push, and the state after it. -/
def MakeNewUndoCommand {σ : Type} (pUndoRedoStack : QUndoStack σ)
    (aUndoAction aRedoAction : UndoCallback σ) (apData : VoidPtr) (s : σ) :
    MaterialLayeringUndoCommand σ × QUndoStack σ × σ :=
  let pcommand := MaterialLayeringUndoCommand.new aUndoAction aRedoAction apData
  let pushed := pUndoRedoStack.push pcommand.toQUndoCommand s
  (pcommand, pushed.1, pushed.2)

/-- Which of the two callbacks of a command was invoked. -/
inductive CallbackKind where
  | undoCallback
  | redoCallback
  deriving DecidableEq, Repr

/-- A callback that records its own invocation, with the pointer it was given. -/
def recordingCallback (kind : CallbackKind) : UndoCallback (List (CallbackKind × VoidPtr)) :=
  fun apData invocations => invocations ++ [(kind, apData)]

/-! ## The document life cycle (Open, Close, property editor, buttons, texture sync)

These member functions are embedded as transformers of the dialog's members.  Message boxes
and requests to the material database are appended to `calls`; calls that only redraw widgets
(LOD combo box, preview, window title, browser selection, the property tree itself) keep no
state the dialog reads back and are left out. -/

/-- The members of `MaterialLayeringDialog` and the widget properties that these functions read
or write.  The members `EditedMaterialID`, `EditedMaterialIsModified` and `UseVersionControl`
are those of `w`. -/
structure DialogState where
  w : World
  EditedSubMaterial : ID
  FocusedMaterialID : ID
  MaterialSMState : ShaderModelState
  /-- The rule processors assigned to the property editor (`QProcessors()`), by handle. -/
  processors : List Nat
  /-- Widget property `isVisible()` of the dialog. -/
  isVisible : Bool
  /-- Property `isEnabled()` of `ui.actionCreateNewMaterial`. -/
  actionCreateNewMaterial : Bool
  /-- Property `isEnabled()` of `ui.syncTexturesButton`. -/
  syncTexturesButton : Bool
  /-- Property `isEnabled()` of `ui.actionSave`. -/
  actionSave : Bool
  /-- Property `isEnabled()` of `ui.actionSaveAs`. -/
  actionSaveAs : Bool
  /-- Property `isEnabled()` of `ui.actionCheckIn`. -/
  actionCheckIn : Bool
  /-- Property `isEnabled()` of `ui.actionCheckOut`. -/
  actionCheckOut : Bool
  /-- Property `isEnabled()` of `ui.actionRevertAllCheckedOutFiles`. -/
  actionRevertAllCheckedOutFiles : Bool
  /-- Property `isEnabled()` of `ui.addLayerButton`. -/
  addLayerButton : Bool
  /-- Property `isEnabled()` of `ui.removeLayerButton`. -/
  removeLayerButton : Bool
  /-- The jobs submitted to the background thread group: the files each is to sync. -/
  submittedJobs : List (List String)
  /-- Message boxes shown and requests made to the material database so far. -/
  calls : List Event

/-- The dialog: its members and its undo stack `pUndoRedoStack`. -/
structure Dialog where
  state : DialogState
  pUndoRedoStack : QUndoStack DialogState

/-- The call `IsFileModified`: the file of an object is modified once the object has been
reported modified (`NotifyObjectModified`). -/
def IsFileModified (w : World) (id : ID) : Bool := w.modifiedObjects.contains id

/-- Embedding of `SharedTools::CalculateShaderModelState(arMaterialRootNode, arState)`
(ShaderModel.cpp), over the nodes `ApplyRecursively` visits; the counters are `uint16_t`. -/
def CalculateShaderModelState (nodes : List PropertyNode) : ShaderModelState :=
  nodes.foldl (fun arState arChild =>
    if arChild.QModel then
      match arChild.native with
      | .LayerID layerID =>
        { arState with
          LayerCount := (arState.LayerCount + 1) % 65536  -- Total available layers
          LayersInUse :=
            if QValid layerID then (arState.LayersInUse + 1) % 65536  -- used layer slot
            else arState.LayersInUse }
      | .BlenderID _ => { arState with BlenderCount := (arState.BlenderCount + 1) % 65536 }
      | .other => arState
    else arState) { LayersInUse := 0, LayerCount := 0, BlenderCount := 0 }

/-- Embedding of `MaterialLayeringDialog::CanAddLayer()`. -/
def CanAddLayer (d : DialogState) : Bool :=
  decide (d.MaterialSMState.LayersInUse < d.MaterialSMState.LayerCount)

/-- Embedding of `MaterialLayeringDialog::CanRemoveLayer()`. -/
def CanRemoveLayer (d : DialogState) : Bool :=
  decide (d.MaterialSMState.LayersInUse > 0)

/-- Embedding of `MaterialLayeringDialog::UpdateDocumentModified()`. -/
def UpdateDocumentModified (d : DialogState) : DialogState :=
  -- See if our current document has unsaved changes
  if QValid d.w.EditedMaterialID then
    { d with w := { d.w with EditedMaterialIsModified := IsFileModified d.w d.w.EditedMaterialID } }
  else
    { d with w := { d.w with EditedMaterialIsModified := false } }

/-- Text of the warning of `UpdateButtonState`. -/
def depotNotMappedMsg (w : World) : String :=
  "Source texture depot folder not mapped in source control workspace : \n" ++
    w.sPerforceSourceTextureDepotPath ++ ", some features may be disabled such as saving."

/-- Embedding of `MaterialLayeringDialog::UpdateButtonState()`. -/
def UpdateButtonState (d : DialogState) : DialogState :=
  let sourceDepotValid := d.w.SourceTextureDepotPathValid
  let d :=
    if !sourceDepotValid && d.w.UseVersionControl then
      -- Make sure to warn when dialog only when dialog is visible the first time.
      if d.isVisible then
        { d with
          calls := d.calls ++ [Event.warning (depotNotMappedMsg d.w)]
          w := { d.w with UseVersionControl := false } }
      else d
    else d
  let enabled := QValid d.w.EditedMaterialID
  let hasPerforce := d.w.QPerforceAvailable && sourceDepotValid
  { d with
    actionCreateNewMaterial := enabled
    syncTexturesButton := hasPerforce && enabled
    actionSave := enabled
    actionSaveAs := enabled
    actionCheckIn := hasPerforce
    actionCheckOut := enabled && hasPerforce
    actionRevertAllCheckedOutFiles := hasPerforce
    addLayerButton := CanAddLayer d
    removeLayerButton := CanRemoveLayer d }

/-- Embedding of `MaterialLayeringDialog::UpdateMaterialShaderModelState()`, called when the
property editor holds the tree of `EditedSubMaterial`. -/
def UpdateMaterialShaderModelState (d : DialogState) : DialogState :=
  { d with MaterialSMState := CalculateShaderModelState (d.w.editorNodes d.EditedSubMaterial) }

/-- Embedding of `MaterialLayeringDialog::ApplyShaderModel(apShaderModel)`. -/
def ApplyShaderModel (d : DialogState) (apShaderModel : String) : DialogState :=
  -- Try to find the rule processor.
  match d.w.GetShaderModelRuleProcessor apShaderModel with
  | some processorToApply => { d with processors := d.processors ++ [processorToApply] }
  | none => d

/-- Embedding of `MaterialLayeringDialog::UpdateLODCombo()`: the combo box is refilled with its
signals blocked, after the pending database changes are flushed. -/
def UpdateLODCombo (d : DialogState) : DialogState :=
  { d with calls := d.calls ++ [Event.Flush] }

/-- Embedding of `MaterialLayeringDialog::BuildPropertyEditor()`. -/
def BuildPropertyEditor (d : DialogState) : DialogState :=
  -- Clear assigned shared ptr processors.
  let d := { d with processors := [] }
  -- Ensure all changes have been committed to the DB
  let d := { d with calls := d.calls ++ [Event.Flush] }
  let isRootMaterial := d.w.IsShaderModelRootMaterial d.EditedSubMaterial
  -- Get the shader model used by the Material if any and apply the rule processor.
  let shaderModel := d.w.shaderModelFileName d.EditedSubMaterial
  let d := if !isRootMaterial && !shaderModel.isEmpty then ApplyShaderModel d shaderModel else d
  -- (post processors, BeginAddObjects / AddEditedObject / EndAddObjects)
  let d := UpdateLODCombo d
  let d := UpdateDocumentModified d
  -- (UpdatePreview)
  let d := UpdateMaterialShaderModelState d
  -- (PropagateShaderModelState)
  UpdateButtonState d

/-- Embedding of `MaterialLayeringDialog::OnRefreshPropertyEditor()`. -/
def OnRefreshPropertyEditor (d : DialogState) : DialogState :=
  let d := BuildPropertyEditor d
  -- (SelectMaterial of the focused or edited material, RefreshCheckpoint)
  -- Clear focus drop target state for next refresh.
  { d with FocusedMaterialID := NullIDC }

/-- Embedding of `MaterialLayeringDialog::UpdateShaderModel()`. -/
def UpdateShaderModel (d : DialogState) : DialogState :=
  let isRootMaterial := d.w.IsShaderModelRootMaterial d.w.EditedMaterialID
  let (d, shouldReload) : DialogState × Bool :=
    if !isRootMaterial then
      let shaderModelName := d.w.shaderModelFileName d.w.EditedMaterialID
      if !shaderModelName.isEmpty then
        match d.w.GetShaderModelRuleProcessor shaderModelName with
        | some processorToApply => (d, !d.processors.contains processorToApply)
        | none => (d, false)
      else if d.processors.length > 0 then
        -- the user has set it back to "None": make sure no Shader Model is applied.
        ({ d with processors := [] }, true)
      else (d, false)
    else (d, false)
  -- Processor is outdated and needs to be updated.
  if shouldReload then OnRefreshPropertyEditor d else d

/-- Embedding of `MaterialLayeringDialog::OnMaterialPropertyChanged()`. -/
def OnMaterialPropertyChanged (d : DialogState) : DialogState :=
  let d := { d with
    w := d.w.NotifyObjectModified d.w.EditedMaterialID
    calls := d.calls ++ [Event.NotifyObjectModified d.w.EditedMaterialID] }
  -- (Update the preview widget)
  let d := UpdateDocumentModified d
  -- Finally, if there is a change in the ShaderModel then reload the current material.
  UpdateShaderModel d

/-- Embedding of `MaterialLayeringDialog::Close()`. -/
def Close (d : DialogState) : DialogState :=
  if QValid d.w.EditedMaterialID then
    let d :=
      if !EditedFileExists d.w then
        -- never saved: we can free all its associated objects
        { d with calls := d.calls ++ [Event.RequestDestroyFileObjects d.w.EditedMaterialID] }
      else d
    -- (ClearPropertyEditor)
    let d := { d with w := { d.w with EditedMaterialID := NullIDC }, EditedSubMaterial := NullIDC }
    let d := UpdateDocumentModified d
    -- Make sure to flush the shader model state.
    let d := { d with MaterialSMState := { LayersInUse := 0, LayerCount := 0, BlenderCount := 0 } }
    UpdateButtonState d
  else d

/-- Embedding of `MaterialLayeringDialog::Open(aMaterial)`: the result and the dialog on
return. -/
def Open (dlg : Dialog) (aMaterial : ID) : Bool × Dialog :=
  let pUndoRedoStack := dlg.pUndoRedoStack.clear
  let d := { dlg.state with
    w := { dlg.state.w with EditedMaterialID := aMaterial }
    EditedSubMaterial := aMaterial }
  if QValid d.w.EditedMaterialID then
    let d := UpdateLODCombo d
    -- (SelectMaterial, AdjustSceneForDecalPreview)
    let d := BuildPropertyEditor d
    -- (ProcessDefaultState, setUpdatesEnabled)
    (true, { state := d, pUndoRedoStack := pUndoRedoStack })
  else
    (false, { state := Close d, pUndoRedoStack := pUndoRedoStack })

/-- Insertion `set.emplace(value)`. -/
def emplace (set : List String) (value : String) : List String :=
  if set.contains value then set else set ++ [value]

/-- Embedding of `MaterialLayeringDialog::OnSyncTextures()`: the button is disabled and the
job that syncs the files is submitted to the background thread group.  The job ends by
emitting `SyncTexturesFinished`, which is queued to `OnSyncTexturesFinished`. -/
def OnSyncTextures (d : DialogState) : DialogState :=
  let referencedTextures := (d.w.texturesToSync d.w.EditedMaterialID).foldl emplace []
  -- Indicate that the P4 sync is in progress
  let d := { d with syncTexturesButton := false }
  let referencedTextures :=
    if d.w.ShouldSyncMapsOnTexSync then
      -- Collect baked maps to sync
      (d.w.bakedMaps d.w.EditedMaterialID).foldl emplace referencedTextures
    else referencedTextures
  -- Launch a job to sync the files in the background
  { d with submittedJobs := d.submittedJobs ++ [referencedTextures] }

/-- Embedding of `MaterialLayeringDialog::OnSyncTexturesFinished()`. -/
def OnSyncTexturesFinished (d : DialogState) : DialogState :=
  let d := { d with syncTexturesButton := true }
  -- Refresh to let the newly synced textures show up
  OnRefreshPropertyEditor d

/-- The dialog operations that may run on the GUI thread around a texture sync. -/
inductive DialogOp where
  | OnSyncTextures
  | OnSyncTexturesFinished
  | OnMaterialPropertyChanged
  | OnRefreshPropertyEditor
  | Open (aMaterial : ID)
  | Close
  deriving DecidableEq, Repr

/-- One operation of the GUI thread. -/
def Dialog.step (dlg : Dialog) : DialogOp → Dialog
  | .OnSyncTextures => { dlg with state := OnSyncTextures dlg.state }
  | .OnSyncTexturesFinished => { dlg with state := OnSyncTexturesFinished dlg.state }
  | .OnMaterialPropertyChanged => { dlg with state := OnMaterialPropertyChanged dlg.state }
  | .OnRefreshPropertyEditor => { dlg with state := OnRefreshPropertyEditor dlg.state }
  | .Open aMaterial => (Open dlg aMaterial).2
  | .Close => { dlg with state := Close dlg.state }

/-- A sequence of operations of the GUI thread, in order. -/
def Dialog.run (dlg : Dialog) (ops : List DialogOp) : Dialog := ops.foldl Dialog.step dlg

/-! ## Concrete worlds -/

/-- A database with no materials, no files and no version control; the concrete inputs below
override the fields they need. -/
def emptyWorld : World where
  UseVersionControl := false
  bUseVersionControl := false
  spperforce := false
  EditedMaterialID := NullIDC
  EditedMaterialIsModified := false
  materials := []
  dataParent := fun _ => NullIDC
  shaderModelRoot := fun _ => NullIDC
  name := fun _ => ""
  checkedOutFiles := []
  GatherReferencedFiles := fun _ => none
  modifiedObjects := []
  GetObjectFilename := fun _ => none
  GetObjectByFilename := fun _ => NullIDC
  MakePerforcePath := fun f => f
  MakeLocalPath := fun f => f
  CheckoutFiles := fun _ => false
  CheckinFiles := fun _ => false
  GetFileInfo := fun _ => none
  cacheFileInfo := fun _ => none
  AddFile := fun _ => false
  BSDeleteFile := fun _ => false
  fileExists := fun _ => false
  Save := fun _ => false
  FindReferencedTextureFiles := fun _ => []
  swapForms := []
  snapshotFiles := fun _ => []
  shaderModelFileName := fun _ => ""
  GetShaderModelLocked := fun _ => false
  SaveAs := fun _ _ => false
  CloneFileObjects := fun m _ => m
  ValidateNewMaterialName := fun _ => none
  SourceTextureDepotPathValid := false
  sPerforceSourceTextureDepotPath := ""
  QPerforceAvailable := false
  IsShaderModelRootMaterial := fun _ => false
  GetShaderModelRuleProcessor := fun _ => none
  editorNodes := fun _ => []
  ShouldSyncMapsOnTexSync := false
  texturesToSync := fun _ => []
  bakedMaps := fun _ => []

/-- Version control is in use, material 1 (file `a.mat`) is being edited, nothing is checked
out, and every checkout fails. -/
def checkoutFailsWorld : World :=
  { emptyWorld with
    UseVersionControl := true
    bUseVersionControl := true
    spperforce := true
    EditedMaterialID := 1
    materials := [1, 2]
    GatherReferencedFiles := fun m => if m = 1 then some ["a.mat"] else none
    GetObjectFilename := fun m => if m = 1 then some "a.mat" else none
    CheckoutFiles := fun _ => false }

/-- Like `checkoutFailsWorld`, but every checkout succeeds. -/
def checkoutSucceedsWorld : World :=
  { checkoutFailsWorld with CheckoutFiles := fun _ => true }

/-- No version control; material 1 is named `foo` and stored in `Data\\Materials\\foo.mat`,
which cannot be deleted (it is read only). -/
def renameWorld : World :=
  { emptyWorld with
    materials := [1]
    name := fun m => if m = 1 then "foo" else ""
    GetObjectByFilename := fun f => if f = "Data\\Materials\\foo.mat" then 1 else NullIDC
    GetObjectFilename := fun m => if m = 1 then some "Data\\Materials\\foo.mat" else none
    fileExists := fun _ => true
    SaveAs := fun _ _ => true
    BSDeleteFile := fun _ => false }

/-- Version control is in use; material 1 is named `foo`, its file is checked out for edit, and
the check-in of a rename is cancelled. -/
def renameCheckinCancelledWorld : World :=
  { renameWorld with
    UseVersionControl := true
    bUseVersionControl := true
    spperforce := true
    GetFileInfo := fun _ => some { QAction := .ACTION_EDIT, QHasOtherCheckouts := false }
    CheckinFiles := fun _ => false
    BSDeleteFile := fun _ => true }

/-- Materials 1, 2, 3 share the shader-model root 3; 1 derives from 3 and 2 derives from 1.
Saving succeeds. -/
def hierarchyWorld : World :=
  { emptyWorld with
    materials := [1, 2, 3]
    dataParent := fun m => if m = 1 then 3 else if m = 2 then 1 else NullIDC
    shaderModelRoot := fun _ => 3
    Save := fun _ => true }

/-- Materials 1 and 2 have the shader-model roots 3 and 4. -/
def twoShaderModelsWorld : World :=
  { emptyWorld with
    materials := [1, 2, 3, 4]
    dataParent := fun m => if m = 1 then 3 else if m = 2 then 4 else NullIDC
    shaderModelRoot := fun m => if m = 1 ∨ m = 3 then 3 else 4
    Save := fun _ => true }

/-- Materials 1 and 2 both derive from the shader-model root 3; material 2 is being edited and
saving succeeds. -/
def siblingsWorld : World :=
  { emptyWorld with
    EditedMaterialID := 2
    materials := [1, 2, 3]
    dataParent := fun m => if m = 1 ∨ m = 2 then 3 else NullIDC
    shaderModelRoot := fun _ => 3
    Save := fun _ => true }

/-- Material 1 (file `a.mat`) has the data child 2; no version control. -/
def dataChildWorld : World :=
  { emptyWorld with
    materials := [1, 2]
    dataParent := fun m => if m = 2 then 1 else NullIDC
    GetObjectByFilename := fun f => if f = "a.mat" then 1 else NullIDC
    GatherReferencedFiles := fun m => if m = 1 then some ["a.mat"] else none
    BSDeleteFile := fun _ => true }

/-- Material 1 (file `a.mat`) is the override material of an entry of a material-swap form;
no version control. -/
def swapFormWorld : World :=
  { emptyWorld with
    materials := [1]
    GetObjectByFilename := fun f => if f = "a.mat" then 1 else NullIDC
    GatherReferencedFiles := fun m => if m = 1 then some ["a.mat"] else none
    swapForms := [{ editorID := "Swap", formID := 255, Entries := [1] }]
    BSDeleteFile := fun _ => true }

/-- Like `dataChildWorld`, with the INI setting `bUseVersionControl` set, no Perforce
connection, and the member `UseVersionControl` cleared for that reason. -/
def noConnectionWorld : World :=
  { dataChildWorld with
    bUseVersionControl := true
    spperforce := false
    UseVersionControl := false }

/-- Material 1 (file `a.mat`) is the only material: it has no textures, no data children and no
form uses it, and its only sub-object file is `layer.mat`. -/
def loneMaterialWorld : World :=
  { emptyWorld with
    materials := [1]
    GetObjectByFilename := fun f => if f = "a.mat" then 1 else NullIDC
    GatherReferencedFiles := fun m => if m = 1 then some ["layer.mat"] else none
    BSDeleteFile := fun _ => true }

/-- A source tree: the root document (empty data path) with the properties `Layers` (value 5,
data parent value 7) and `Opacity` (value 3, no data parent, type default 0). -/
def sourceTree : ModelNode :=
  .mk "" .Normal false 1 0 0
    [.mk "Layers" .Normal true 5 7 0 [], .mk "Opacity" .Normal false 3 0 0 []]

/-- A processed destination tree in which `Layers` is present but read-only and `Opacity` is
present and editable. -/
def readOnlyDestTree : ModelNode :=
  .mk "" .Normal false 2 0 0
    [.mk "Layers" .ReadOnly true 0 0 0 [], .mk "Opacity" .Normal false 0 0 0 []]

/-- The callback call on the property `Layers` of `sourceTree`: a `SetValue` with the data
parent's value. -/
def layersVisit : Visit :=
  { dataPath := "Layers", QHasDataParent := true, parentValue := 7, defaultValue := 0,
    call := some (.SetValue 7) }

/-- Perforce is available and the source texture depot is mapped; materials 1 and 2 are
stored in `a.mat` and `b.mat`, and material 1 references the texture `wood.dds`. -/
def perforceWorld : World :=
  { emptyWorld with
    UseVersionControl := true
    bUseVersionControl := true
    spperforce := true
    materials := [1, 2]
    GetObjectFilename := fun m => if m = 1 then some "a.mat" else if m = 2 then some "b.mat" else none
    fileExists := fun _ => true
    SourceTextureDepotPathValid := true
    QPerforceAvailable := true
    editorNodes := fun _ => [{ QModel := true, native := .LayerID 7 }]
    texturesToSync := fun m => if m = 1 then ["wood.dds"] else [] }

/-- Embedding of the constructor `MaterialLayeringDialog(apParent, arSite)`: the members of a
dialog that has just been constructed over a world.  No material is edited,
`UseVersionControl` is the INI setting, and the buttons are as `UpdateButtonState` sets them. -/
def newDialogState (w : World) : DialogState :=
  UpdateButtonState
    { w := { w with
        UseVersionControl := w.bUseVersionControl
        EditedMaterialID := NullIDC
        EditedMaterialIsModified := false }
      EditedSubMaterial := NullIDC
      FocusedMaterialID := NullIDC
      MaterialSMState := { LayersInUse := 0, LayerCount := 0, BlenderCount := 0 }
      processors := []
      isVisible := false
      actionCreateNewMaterial := true
      syncTexturesButton := true
      actionSave := true
      actionSaveAs := true
      actionCheckIn := true
      actionCheckOut := true
      actionRevertAllCheckedOutFiles := true
      addLayerButton := true
      removeLayerButton := true
      submittedJobs := []
      calls := [] }

/-- A dialog that has just been constructed over `perforceWorld` and shown, with an empty undo
stack. -/
def perforceDialog : Dialog :=
  { state := { newDialogState perforceWorld with isVisible := true }
    pUndoRedoStack := { commands := [], index := 0 } }

/-! ## Theorems -/

/-- Support for C1 and C7: `CheckoutCurrentFiles` never writes through `apOutAllCheckedOut`;
the memory it returns is the memory it was given. -/
theorem CheckoutCurrentFiles_mem (w : World) (aVerbose : Bool) (p : BoolPtr) (mem : Mem) :
    (CheckoutCurrentFiles w aVerbose p mem).mem = mem := by
  unfold CheckoutCurrentFiles
  cases p <;> simp only [BoolPtr.ofFalse] <;> split <;> (try split) <;> (try split) <;> simp

/-- Support for C1: once the user has confirmed, `SwitchMaterialToShaderModel` opens the
shader-model selection dialog whatever the outcome of the checkout. -/
theorem SwitchMaterialToShaderModel_confirmed_opens_dialog (w : World) (aMaterialToProcess : ID)
    (accepted : Option ID) :
    Event.showSwitchShaderModelDialog aMaterialToProcess ∈
      SwitchMaterialToShaderModel w aMaterialToProcess .Yes accepted := by
  simp [SwitchMaterialToShaderModel, CheckoutCurrentFiles_mem, Mem.store]

/-- C1, failing input: version control is in use, the user confirms the switch of material 1,
and the checkout of its file fails (nothing is checked out).  The switch is not abandoned: no
"Not all files could be checked out" warning is shown, the shader-model selection dialog is
opened, and accepting it calls `ChangeShaderModel` for the material. -/
theorem SwitchMaterialToShaderModel_continues_after_failed_checkout :
    checkoutFailsWorld.UseVersionControl = true ∧
    checkoutFailsWorld.CheckoutFiles ["a.mat", "a.mat"] = false ∧
    (CheckoutCurrentFiles (checkoutFailsWorld.NotifyObjectModified 1) true (some 0)
      (fun _ => true)).files = [] ∧
    SwitchMaterialToShaderModel checkoutFailsWorld 1 .Yes (some 2) =
      [Event.warning switchQuestion,
       Event.NotifyObjectModified 1,
       Event.CheckoutFiles ["a.mat", "a.mat"],
       Event.browserRefresh,
       Event.showSwitchShaderModelDialog 1,
       Event.ChangeShaderModel 1 2,
       Event.undoStackClear,
       Event.UpdateDocumentModified,
       Event.OnRefreshPropertyEditor,
       Event.MigrateShaderModelProperties 2,
       Event.SaveAll [1],
       Event.OnRefreshPropertyEditor,
       Event.critical "Some materials failed to save\nCheck the log for details\nYou're recommended to revert all open changes now"] := by
  decide

/-- C2, failing input: material 2 is a data child of material 1, and both use the same shader
model.  Reparenting 1 under 2, and reparenting 1 under itself, are not rejected: no
circular-link error is reported, `RequestReparentObject` is issued and the result is true. -/
theorem ReparentMaterial_accepts_circular_link :
    hierarchyWorld.dataParent 2 = 1 ∧
    2 ∈ dataChildren hierarchyWorld 1 ∧
    ReparentMaterial hierarchyWorld 1 2 false .Yes =
      { success := true, events := [Event.RequestReparentObject 1 2, Event.Save 1] } ∧
    ReparentMaterial hierarchyWorld 1 1 false .Yes =
      { success := true, events := [Event.RequestReparentObject 1 1, Event.Save 1] } := by
  decide

/-- The callback of `ReparentMaterial` answers `Continue` on every object other than the new
parent, so the traversal of a list that does not hold the new parent ends with `Continue`. -/
theorem TraverseDataChildren_continue (aParentMaterial : ID) (l : List ID) (n : Nat)
    (h : aParentMaterial ∉ l) :
    (TraverseDataChildren
      (fun (numChildMaterials : Nat) aChildObject =>
        (numChildMaterials + 1,
          if aChildObject == aParentMaterial then ForEachResult.Stop else ForEachResult.Continue))
      l n).2 = .Continue := by
  induction l generalizing n with
  | nil => rfl
  | cons o os ih =>
    have ho : (o == aParentMaterial) = false := by
      rw [beq_eq_false_iff_ne]
      intro heq
      exact h (heq ▸ List.mem_cons_self _ _)
    unfold TraverseDataChildren
    simp only [ho]
    exact ih _ (fun hmem => h (List.mem_cons_of_mem _ hmem))

/-- Support for C2: whenever the new parent is not its own data descendant, that is in every
acyclic hierarchy, `ReparentMaterial` does not report the circular-link error, whatever the
relation between the target and the new parent. -/
theorem ReparentMaterial_never_reports_circular_link (w : World)
    (aTargetMaterial aParentMaterial : ID) (aUserConfirmationPrompt : Bool) (answer : Button)
    (h : aParentMaterial ∉ dataChildren w aParentMaterial) :
    Event.critical (circularLinkMsg w aTargetMaterial aParentMaterial) ∉
      (ReparentMaterial w aTargetMaterial aParentMaterial aUserConfirmationPrompt answer).events := by
  have hT := TraverseDataChildren_continue aParentMaterial (dataChildren w aParentMaterial) 0 h
  unfold ReparentMaterial
  revert hT
  generalize TraverseDataChildren _ (dataChildren w aParentMaterial) 0 = tr
  obtain ⟨n, r⟩ := tr
  intro hT
  dsimp only at hT ⊢
  subst hT
  generalize differentShaderModelMsg w aTargetMaterial aParentMaterial = m1
  generalize circularLinkMsg w aTargetMaterial aParentMaterial = m2
  generalize reparentQuestion n = m3
  generalize (!(w.shaderModelRoot aTargetMaterial == aParentMaterial) &&
      w.shaderModelRoot aTargetMaterial != w.shaderModelRoot aParentMaterial) = c1
  generalize (aTargetMaterial == w.EditedMaterialID) = c2
  generalize w.Save aTargetMaterial = c3
  cases c1 <;> cases aUserConfirmationPrompt <;> cases answer <;>
    cases c2 <;> cases c3 <;> simp

/-- C5: when the target and the new parent have different shader-model root materials and the
new parent is not the target's shader-model root material, `ReparentMaterial` only shows the
shader-model warning: it issues no `RequestReparentObject` and returns false. -/
theorem ReparentMaterial_rejects_different_shader_model (w : World)
    (aTargetMaterial aParentMaterial : ID) (aUserConfirmationPrompt : Bool) (answer : Button)
    (hroots : w.shaderModelRoot aTargetMaterial ≠ w.shaderModelRoot aParentMaterial)
    (hbreak : aParentMaterial ≠ w.shaderModelRoot aTargetMaterial) :
    (ReparentMaterial w aTargetMaterial aParentMaterial aUserConfirmationPrompt answer).success
      = false ∧
    (∀ e ∈ (ReparentMaterial w aTargetMaterial aParentMaterial aUserConfirmationPrompt
      answer).events, e.isReparentRequest = false) ∧
    (ReparentMaterial w aTargetMaterial aParentMaterial aUserConfirmationPrompt answer).events
      = [Event.warning (differentShaderModelMsg w aTargetMaterial aParentMaterial)] := by
  have h1 : (w.shaderModelRoot aTargetMaterial == aParentMaterial) = false := by
    simpa using fun h => hbreak h.symm
  have h2 : (w.shaderModelRoot aTargetMaterial != w.shaderModelRoot aParentMaterial) = true := by
    simpa using hroots
  simp [ReparentMaterial, h1, h2, Event.isReparentRequest]

/-- Witness of C5: materials 1 and 2 of `twoShaderModelsWorld` have the roots 3 and 4. -/
theorem ReparentMaterial_rejects_different_shader_model_witness :
    (ReparentMaterial twoShaderModelsWorld 1 2 false .Yes).success = false ∧
    (∀ e ∈ (ReparentMaterial twoShaderModelsWorld 1 2 false .Yes).events,
      e.isReparentRequest = false) ∧
    (ReparentMaterial twoShaderModelsWorld 1 2 false .Yes).events
      = [Event.warning (differentShaderModelMsg twoShaderModelsWorld 1 2)] :=
  ReparentMaterial_rejects_different_shader_model twoShaderModelsWorld 1 2 false .Yes
    (by decide) (by decide)

/-- Support for C6: a call that issues no `RequestReparentObject` returns false. -/
theorem ReparentMaterial_success_needs_request (w : World) (aTargetMaterial aParentMaterial : ID)
    (aUserConfirmationPrompt : Bool) (answer : Button)
    (h : (ReparentMaterial w aTargetMaterial aParentMaterial aUserConfirmationPrompt
      answer).success = true) :
    Event.RequestReparentObject aTargetMaterial aParentMaterial ∈
      (ReparentMaterial w aTargetMaterial aParentMaterial aUserConfirmationPrompt answer).events := by
  unfold ReparentMaterial at h ⊢
  generalize TraverseDataChildren _ (dataChildren w aParentMaterial) 0 = tr at h ⊢
  obtain ⟨n, r⟩ := tr
  dsimp only at h ⊢
  generalize differentShaderModelMsg w aTargetMaterial aParentMaterial = m1 at h ⊢
  generalize circularLinkMsg w aTargetMaterial aParentMaterial = m2 at h ⊢
  generalize reparentQuestion n = m3 at h ⊢
  generalize (!(w.shaderModelRoot aTargetMaterial == aParentMaterial) &&
      w.shaderModelRoot aTargetMaterial != w.shaderModelRoot aParentMaterial) = c1 at h ⊢
  generalize (aTargetMaterial == w.EditedMaterialID) = c2 at h ⊢
  generalize w.Save aTargetMaterial = c3 at h ⊢
  cases c1 <;> cases r <;> cases aUserConfirmationPrompt <;> cases answer <;>
    cases c2 <;> cases c3 <;> first | (simp at h; done) | simp

/-- C6, failing input: material 2 is reparented under its sibling 1 (same shader model, no
circular link) with the confirmation prompt, and the user answers Yes.
`RequestReparentObject` is issued for the target, no save is performed, and the result is
false. -/
theorem ReparentMaterial_confirmed_reparent_returns_false :
    siblingsWorld.shaderModelRoot 2 = siblingsWorld.shaderModelRoot 1 ∧
    dataChildren siblingsWorld 1 = [] ∧
    ReparentMaterial siblingsWorld 2 1 true .Yes =
      { success := false,
        events := [Event.question "Are you sure you want to reparent your material?",
                   Event.RequestReparentObject 2 1] } := by
  decide

/-- C7, failing inputs: `apOutAllCheckedOut` points at a flag.  When the checkout fails (no
file is checked out) a flag that held true still holds true on return; when the checkout
succeeds (the file is checked out) a flag that held false still holds false. -/
theorem CheckoutCurrentFiles_leaves_flag_unset :
    (CheckoutCurrentFiles checkoutFailsWorld true (some 0) (fun _ => true)).files = [] ∧
    (CheckoutCurrentFiles checkoutFailsWorld true (some 0) (fun _ => true)).mem 0 = true ∧
    (CheckoutCurrentFiles checkoutSucceedsWorld true (some 0) (fun _ => false)).files
      = ["a.mat"] ∧
    (CheckoutCurrentFiles checkoutSucceedsWorld true (some 0) (fun _ => false)).mem 0
      = false := by
  decide

/-! ### Delete -/

/-- The message loop lists the first `10 - index` items, then an ellipsis if items remain. -/
theorem appendFirstTen_eq (suffix : String) (items : List String) (index : Nat)
    (message : String) :
    appendFirstTen suffix items index message =
      message ++ concatLines ((items.take (10 - index)).map (fun item => item ++ suffix)) ++
        (if 10 - index < items.length then "...\n" else "") := by
  induction items generalizing index message with
  | nil => simp [appendFirstTen, concatLines]
  | cons item rest ih =>
    unfold appendFirstTen
    by_cases h : index ≥ 10
    · have h0 : 10 - index = 0 := by omega
      simp [h, h0, concatLines]
    · have h1 : 10 - index = (10 - (index + 1)) + 1 := by omega
      rw [if_neg h, ih, h1]
      simp [concatLines, String.append_assoc]

/-- The inner loop of `FindFormDependenciesForLayeredMaterial` never empties the array. -/
theorem entriesFold_ne_nil (id : ID) (modelStr : String) (entries : List ID) (acc : List String)
    (h : acc ≠ []) :
    entries.foldl (fun modelsUsingMaterial OverrideMaterial =>
      if OverrideMaterial == id then
        if !IsInArray modelsUsingMaterial modelStr then modelsUsingMaterial ++ [modelStr]
        else modelsUsingMaterial
      else modelsUsingMaterial) acc ≠ [] := by
  induction entries generalizing acc with
  | nil => simpa using h
  | cons e es ih =>
    simp only [List.foldl_cons]
    apply ih
    split
    · split
      · simp
      · exact h
    · exact h

/-- The inner loop of `FindFormDependenciesForLayeredMaterial` records a form one of whose
entries overrides with the material. -/
theorem entriesFold_hit (id : ID) (modelStr : String) (entries : List ID) (acc : List String)
    (h : id ∈ entries) :
    entries.foldl (fun modelsUsingMaterial OverrideMaterial =>
      if OverrideMaterial == id then
        if !IsInArray modelsUsingMaterial modelStr then modelsUsingMaterial ++ [modelStr]
        else modelsUsingMaterial
      else modelsUsingMaterial) acc ≠ [] := by
  induction entries generalizing acc with
  | nil => simp at h
  | cons e es ih =>
    simp only [List.foldl_cons]
    rcases List.mem_cons.mp h with rfl | h
    · apply entriesFold_ne_nil
      simp only [beq_self_eq_true, if_true]
      split
      · simp
      · rename_i hc
        intro hnil
        simp [hnil, IsInArray] at hc
    · exact ih _ h

/-- The outer loop of `FindFormDependenciesForLayeredMaterial` never empties the array. -/
theorem formsFold_ne_nil (id : ID) (forms : List SwapForm) (acc : List String) (h : acc ≠ []) :
    formsFold id forms acc ≠ [] := by
  induction forms generalizing acc with
  | nil => simpa [formsFold] using h
  | cons f fs ih =>
    simp only [formsFold, List.foldl_cons]
    exact ih _ (entriesFold_ne_nil id _ f.Entries acc h)

/-- The outer loop records a form one of whose entries overrides with the material. -/
theorem formsFold_hit (id : ID) (forms : List SwapForm) (acc : List String)
    (h : ∃ swap ∈ forms, id ∈ swap.Entries) : formsFold id forms acc ≠ [] := by
  induction forms generalizing acc with
  | nil => simp at h
  | cons f fs ih =>
    simp only [formsFold, List.foldl_cons]
    obtain ⟨swap, hmem, hid⟩ := h
    rcases List.mem_cons.mp hmem with rfl | hmem
    · exact formsFold_ne_nil id fs _ (entriesFold_hit id _ swap.Entries acc hid)
    · exact ih _ ⟨swap, hmem, hid⟩

/-- A material that is the override material of an entry of some material-swap form has a
non-empty dependency list. -/
theorem FindFormDependenciesForLayeredMaterial_ne_nil (w : World) (id : ID)
    (h : ∃ swap ∈ w.swapForms, id ∈ swap.Entries) :
    FindFormDependenciesForLayeredMaterial w id ≠ [] :=
  formsFold_hit id w.swapForms [] h

/-- C3: when the material stored under the file has data children, or is the override material
of an entry of at least one material-swap form, `Delete` makes no destructive call (no
`RequestDestroyFileObjects`, `BSDeleteFile`, `RevertFile` or `MarkForDelete`), whatever the
answers.  Once the user has confirmed, its calls are exactly the confirmation and one
informational message: the data-children message when the material has data children,
otherwise the message that lists the first 10 dependent forms at most (with an ellipsis when
there are more).  Before that: without usable Perforce it makes no call, without a connection
for the confirmation text it stops before any call, and when the user declines it only shows
the confirmation. -/
theorem Delete_restricted_only_informs (w : World) (aFile : String) (answer : Button)
    (wasCanceled : Nat → Bool) (answerSubFiles : Button)
    (h : GetHasDataChildren w (w.GetObjectByFilename (w.MakeLocalPath aFile)) = true ∨
      ∃ swap ∈ w.swapForms, w.GetObjectByFilename (w.MakeLocalPath aFile) ∈ swap.Entries) :
    (∀ events, Delete w aFile answer wasCanceled answerSubFiles = some events →
      ∀ e ∈ events, e.isDestructive = false) ∧
    ((w.spperforce || !w.UseVersionControl) = false →
      Delete w aFile answer wasCanceled answerSubFiles = some []) ∧
    ((w.spperforce || !w.UseVersionControl) = true → deleteConfirmMessage w aFile = none →
      Delete w aFile answer wasCanceled answerSubFiles = none) ∧
    (∀ confirm, (w.spperforce || !w.UseVersionControl) = true →
      deleteConfirmMessage w aFile = some confirm →
      (answer ≠ .Yes →
        Delete w aFile answer wasCanceled answerSubFiles = some [Event.warning confirm]) ∧
      (answer = .Yes → w.GetObjectByFilename (w.MakeLocalPath aFile) = NullIDC →
        Delete w aFile answer wasCanceled answerSubFiles
          = some [Event.warning confirm, Event.information objectNotFoundMsg]) ∧
      (answer = .Yes → w.GetObjectByFilename (w.MakeLocalPath aFile) ≠ NullIDC →
        Delete w aFile answer wasCanceled answerSubFiles
          = some [Event.warning confirm,
              Event.information
                (if GetHasDataChildren w (w.GetObjectByFilename (w.MakeLocalPath aFile)) then
                  dataChildrenMsg
                 else
                  restrictedHeader ++
                    concatLines (((FindFormDependenciesForLayeredMaterial w
                      (w.GetObjectByFilename (w.MakeLocalPath aFile))).take 10).map
                        (fun form => form ++ "\n")) ++
                    (if 10 < (FindFormDependenciesForLayeredMaterial w
                      (w.GetObjectByFilename (w.MakeLocalPath aFile))).length then "...\n"
                     else ""))])) ∧
    ((FindFormDependenciesForLayeredMaterial w
      (w.GetObjectByFilename (w.MakeLocalPath aFile))).take 10).length ≤ 10 := by
  have hno : (w.spperforce || !w.UseVersionControl) = false →
      Delete w aFile answer wasCanceled answerSubFiles = some [] := by
    intro c0
    simp [Delete, c0]
  have hnone : (w.spperforce || !w.UseVersionControl) = true →
      deleteConfirmMessage w aFile = none →
      Delete w aFile answer wasCanceled answerSubFiles = none := by
    intro c0 hm
    simp [Delete, c0, hm]
  have hdecl : ∀ confirm, (w.spperforce || !w.UseVersionControl) = true →
      deleteConfirmMessage w aFile = some confirm → answer ≠ .Yes →
      Delete w aFile answer wasCanceled answerSubFiles = some [Event.warning confirm] := by
    intro confirm c0 hm c1
    have c1b : (answer == Button.Yes) = false := by simpa using c1
    simp [Delete, c0, hm, c1b]
  have hnull : ∀ confirm, (w.spperforce || !w.UseVersionControl) = true →
      deleteConfirmMessage w aFile = some confirm → answer = .Yes →
      w.GetObjectByFilename (w.MakeLocalPath aFile) = NullIDC →
      Delete w aFile answer wasCanceled answerSubFiles
        = some [Event.warning confirm, Event.information objectNotFoundMsg] := by
    intro confirm c0 hm c1 c2
    simp [Delete, c0, hm, c1, c2]
  have hyes : ∀ confirm, (w.spperforce || !w.UseVersionControl) = true →
      deleteConfirmMessage w aFile = some confirm → answer = .Yes →
      w.GetObjectByFilename (w.MakeLocalPath aFile) ≠ NullIDC →
      Delete w aFile answer wasCanceled answerSubFiles
        = some [Event.warning confirm,
            Event.information
              (if GetHasDataChildren w (w.GetObjectByFilename (w.MakeLocalPath aFile)) then
                dataChildrenMsg
               else
                restrictedHeader ++
                  concatLines (((FindFormDependenciesForLayeredMaterial w
                    (w.GetObjectByFilename (w.MakeLocalPath aFile))).take 10).map
                      (fun form => form ++ "\n")) ++
                  (if 10 < (FindFormDependenciesForLayeredMaterial w
                    (w.GetObjectByFilename (w.MakeLocalPath aFile))).length then "...\n"
                   else ""))] := by
    intro confirm c0 hm c1 c2
    have c2b : (w.GetObjectByFilename (w.MakeLocalPath aFile) != NullIDC) = true := by
      simpa using c2
    by_cases c3 : GetHasDataChildren w (w.GetObjectByFilename (w.MakeLocalPath aFile)) = true
    · simp [Delete, c0, hm, c1, c2b, c3]
    · have hdeps : FindFormDependenciesForLayeredMaterial w
          (w.GetObjectByFilename (w.MakeLocalPath aFile)) ≠ [] := by
        rcases h with h | h
        · exact absurd h c3
        · exact FindFormDependenciesForLayeredMaterial_ne_nil w _ h
      have c4 : (FindFormDependenciesForLayeredMaterial w
          (w.GetObjectByFilename (w.MakeLocalPath aFile))).isEmpty = false := by
        cases hd : FindFormDependenciesForLayeredMaterial w
          (w.GetObjectByFilename (w.MakeLocalPath aFile)) with
        | nil => exact absurd hd hdeps
        | cons a l => rfl
      have c3b : GetHasDataChildren w (w.GetObjectByFilename (w.MakeLocalPath aFile)) = false := by
        simpa using c3
      have hmsg := appendFirstTen_eq "\n" (FindFormDependenciesForLayeredMaterial w
        (w.GetObjectByFilename (w.MakeLocalPath aFile))) 0 restrictedHeader
      simp only [Nat.sub_zero] at hmsg
      simp [Delete, c0, hm, c1, c2b, c3b, c4, hmsg]
  refine ⟨?_, hno, hnone, fun confirm c0 hm =>
    ⟨hdecl confirm c0 hm, hnull confirm c0 hm, hyes confirm c0 hm⟩, ?_⟩
  · intro events hev e he
    by_cases c0 : (w.spperforce || !w.UseVersionControl) = true
    swap
    · rw [hno (by simpa using c0)] at hev
      cases hev
      simp at he
    cases hm : deleteConfirmMessage w aFile with
    | none =>
      rw [hnone c0 hm] at hev
      cases hev
    | some confirm =>
      by_cases c1 : answer = .Yes
      swap
      · rw [hdecl confirm c0 hm c1] at hev
        cases hev
        simp at he
        subst he
        rfl
      by_cases c2 : w.GetObjectByFilename (w.MakeLocalPath aFile) = NullIDC
      · rw [hnull confirm c0 hm c1 c2] at hev
        cases hev
        simp at he
        rcases he with rfl | rfl <;> rfl
      · rw [hyes confirm c0 hm c1 c2] at hev
        cases hev
        simp at he
        rcases he with rfl | rfl <;> rfl
  · simp

/-- Witness of C3: material 1 of `dataChildWorld` has a data child, and material 1 of
`swapFormWorld` is the override material of an entry of the form `Swap`.  Confirmed, `Delete`
shows the confirmation and the data-children message in the first world, the confirmation and
the message listing the form in the second, and nothing else; in `noConnectionWorld` it stops
before any call. -/
theorem Delete_restricted_only_informs_witness :
    Delete dataChildWorld "a.mat" .Yes (fun _ => false) .Yes =
      some [Event.warning "Are you sure you would like to delete a.mat ?",
        Event.information "Cannot delete the layered material because it has data children."] ∧
    Delete swapFormWorld "a.mat" .Yes (fun _ => false) .Yes =
      some [Event.warning "Are you sure you would like to delete a.mat ?",
        Event.information
          "Cannot delete the layered material because it is being used by:\n\nMaterial Swap form 'Swap' 000000FF\n"] ∧
    Delete noConnectionWorld "a.mat" .Yes (fun _ => false) .Yes = none :=
  ⟨(((Delete_restricted_only_informs dataChildWorld "a.mat" .Yes (fun _ => false) .Yes
        (Or.inl (by decide))).2.2.2.1
        "Are you sure you would like to delete a.mat ?" (by decide) (by decide)).2.2
        rfl (by decide)).trans (by decide),
   (((Delete_restricted_only_informs swapFormWorld "a.mat" .Yes (fun _ => false) .Yes
        (Or.inr ⟨{ editorID := "Swap", formID := 255, Entries := [1] }, by decide,
          by decide⟩)).2.2.2.1
        "Are you sure you would like to delete a.mat ?" (by decide) (by decide)).2.2
        rfl (by decide)).trans (by decide),
   (Delete_restricted_only_informs noConnectionWorld "a.mat" .Yes (fun _ => false) .Yes
        (Or.inl (by decide))).2.2.1 (by decide) (by decide)⟩

/-- A property kept by every step of a loop holds after the loop. -/
theorem foldl_invariant {α β : Type} (P : β → Prop) (f : β → α → β)
    (hf : ∀ b a, P b → P (f b a)) (l : List α) (b : β) (hb : P b) : P (l.foldl f b) := by
  induction l generalizing b with
  | nil => exact hb
  | cons a l ih => exact ih _ (hf b a hb)

/-- A `Find` result that converts to false is index 0: the value is in the array. -/
theorem mem_of_Find_toBool_false (xs : List String) (x : String)
    (h : (Find xs x).toBool = false) : x ∈ xs := by
  unfold Find at h
  by_cases hlt : xs.indexOf x < xs.length
  · exact List.indexOf_lt_length.mp hlt
  · simp [hlt, FindResult.toBool] at h

/-- Support for C4: every file `Delete` collects is one of the referenced textures of the
deleted material; a sub-object file that is not also a texture is never collected. -/
theorem Delete_collectSubFiles_subset_textures (w : World) (object : ID)
    (wasCanceled : Nat → Bool) (f : String)
    (hf : f ∈ Delete_collectSubFiles w object wasCanceled) :
    f ∈ w.FindReferencedTextureFiles object := by
  revert f
  unfold Delete_collectSubFiles
  -- textures
  have h1 : ∀ f ∈ (if (!(w.FindReferencedTextureFiles object).isEmpty) = true then
      ((w.FindReferencedTextureFiles object).foldl (fun (st : Nat × List String) texture =>
        (st.1 + 1, if !wasCanceled st.1 then st.2 ++ [texture] else st.2)) (0, [])).2
      else []), f ∈ w.FindReferencedTextureFiles object := by
    split
    · have : ∀ l : List String, (∀ x ∈ l, x ∈ w.FindReferencedTextureFiles object) →
          ∀ st : Nat × List String, (∀ f ∈ st.2, f ∈ w.FindReferencedTextureFiles object) →
          ∀ f ∈ (l.foldl (fun (st : Nat × List String) texture =>
            (st.1 + 1, if !wasCanceled st.1 then st.2 ++ [texture] else st.2)) st).2,
            f ∈ w.FindReferencedTextureFiles object := by
        intro l
        induction l with
        | nil => intro _ st hst; simpa using hst
        | cons t l ih =>
          intro hl st hst
          simp only [List.foldl_cons]
          apply ih (fun x hx => hl x (List.mem_cons_of_mem _ hx))
          intro f hf
          dsimp only at hf
          split at hf
          · rcases List.mem_append.mp hf with hf | hf
            · exact hst f hf
            · simp at hf; subst hf; exact hl _ (List.mem_cons_self _ _)
          · exact hst f hf
      exact this _ (fun x hx => hx) (0, []) (by simp)
    · simp
  -- sub objects
  have h2 : ∀ f ∈ (match w.GatherReferencedFiles object with
      | some subObjectFiles =>
        subObjectFiles.foldl (fun filesToDelete subObjFile =>
          if !(Find filesToDelete (w.MakePerforcePath subObjFile)).toBool then
            filesToDelete ++ [w.MakePerforcePath subObjFile]
          else filesToDelete)
          (if (!(w.FindReferencedTextureFiles object).isEmpty) = true then
            ((w.FindReferencedTextureFiles object).foldl (fun (st : Nat × List String) texture =>
              (st.1 + 1, if !wasCanceled st.1 then st.2 ++ [texture] else st.2)) (0, [])).2
            else [])
      | none => (if (!(w.FindReferencedTextureFiles object).isEmpty) = true then
            ((w.FindReferencedTextureFiles object).foldl (fun (st : Nat × List String) texture =>
              (st.1 + 1, if !wasCanceled st.1 then st.2 ++ [texture] else st.2)) (0, [])).2
            else [])), f ∈ w.FindReferencedTextureFiles object := by
    split
    · apply foldl_invariant (fun acc : List String =>
        ∀ f ∈ acc, f ∈ w.FindReferencedTextureFiles object) _ _ _ _ h1
      intro acc x hacc f hf
      split at hf
      · rename_i hc
        rcases List.mem_append.mp hf with hf | hf
        · exact hacc f hf
        · simp at hf; subst hf
          exact hacc _ (mem_of_Find_toBool_false _ _ (by simpa using hc))
      · exact hacc f hf
    · exact h1
  -- other materials
  apply foldl_invariant (fun acc : List String =>
    ∀ f ∈ acc, f ∈ w.FindReferencedTextureFiles object) _ _ _ _ h2
  intro acc m hacc
  have hrem : ∀ (l : List String) (x f : String), f ∈ RemoveAllEqual l x → f ∈ l :=
    fun l x f hf => (List.mem_filter.mp hf).1
  split
  · have h3 : ∀ f ∈ (if ((w.FindReferencedTextureFiles m).length != 0) = true then
        (w.FindReferencedTextureFiles m).foldl (fun filesToDelete objTexture =>
          if IsInArray filesToDelete objTexture = true then RemoveAllEqual filesToDelete objTexture
          else filesToDelete) acc
        else acc), f ∈ w.FindReferencedTextureFiles object := by
      split
      · apply foldl_invariant (fun acc : List String =>
          ∀ f ∈ acc, f ∈ w.FindReferencedTextureFiles object) _ _ _ _ hacc
        intro acc x hacc f hf
        split at hf
        · exact hacc f (hrem _ _ _ hf)
        · exact hacc f hf
      · exact hacc
    split
    · apply foldl_invariant (fun acc : List String =>
        ∀ f ∈ acc, f ∈ w.FindReferencedTextureFiles object) _ _ _ _ h3
      intro acc x hacc f hf
      dsimp only at hf
      split at hf
      · exact hacc f (hrem _ _ _ hf)
      · exact hacc f hf
    · exact h3
  · exact hacc

/-- C4, failing input: the only material has no textures and the sub-object file `layer.mat`,
which no other material references.  By the claim `layer.mat` is a sub file to delete; the code
collects no sub file, and `Delete` removes the material without asking about or deleting
`layer.mat`. -/
theorem Delete_collectSubFiles_drops_sub_object_file :
    loneMaterialWorld.FindReferencedTextureFiles 1 = [] ∧
    loneMaterialWorld.GatherReferencedFiles 1 = some ["layer.mat"] ∧
    Find [] "layer.mat" = .FINDRESULT_NOT_FOUND ∧
    Delete_expectedSubFile loneMaterialWorld 1 "layer.mat" = true ∧
    Delete_collectSubFiles loneMaterialWorld 1 (fun _ => false) = [] ∧
    Delete loneMaterialWorld "a.mat" .Yes (fun _ => false) .Yes =
      some [Event.warning "Are you sure you would like to delete a.mat ?",
       Event.BSDeleteFile "a.mat",
       Event.RequestDestroyFileObjects 1,
       Event.Flush,
       Event.browserRefresh] := by
  decide

/-! ### MigrateShaderModelProperties -/

mutual
/-- Every entry of the traversal log records one callback call on some node. -/
theorem ModelNode.ForEach_log (f : ModelNode → Option PropertyCall × ForEachResult) :
    ∀ (node : ModelNode) (v : Visit), v ∈ (node.ForEach f).2.1 → ∃ n, v = visitOf f n
  | .mk dataPath QState QHasDataParent value parentValue defaultValue children => by
    intro v hv
    unfold ModelNode.ForEach at hv
    dsimp only at hv
    split at hv
    · rcases List.mem_cons.mp hv with h | h
      · exact ⟨_, h⟩
      · exact ForEachList_log f children v h
    · exact ⟨_, List.mem_singleton.mp hv⟩
    · exact ⟨_, List.mem_singleton.mp hv⟩
/-- Every entry of the log of a list traversal records one callback call on some node. -/
theorem ForEachList_log (f : ModelNode → Option PropertyCall × ForEachResult) :
    ∀ (nodes : List ModelNode) (v : Visit), v ∈ (ForEachList f nodes).2.1 → ∃ n, v = visitOf f n
  | [] => by
    intro v hv
    simp [ForEachList] at hv
  | c :: cs => by
    intro v hv
    unfold ForEachList at hv
    split at hv
    · rename_i c1 log heq
      have := ModelNode.ForEach_log f c v
      rw [heq] at this
      exact this hv
    · rename_i c1 log heq
      rcases List.mem_append.mp hv with h | h
      · have := ModelNode.ForEach_log f c v
        rw [heq] at this
        exact this h
      · exact ForEachList_log f cs v h
end

/-- What the callback of `MigrateShaderModelProperties` does on one node. -/
theorem migrateCallback_spec (destRootNode node : ModelNode) :
    (node.GetDataPath = "" → (migrateCallback destRootNode node).1 = none) ∧
    (node.GetDataPath ≠ "" →
      ((∃ n, destRootNode.FindDataPath node.GetDataPath = some n ∧ n.QState ≠ .ReadOnly) →
        (migrateCallback destRootNode node).1 = none) ∧
      ((destRootNode.FindDataPath node.GetDataPath = none ∨
        ∃ n, destRootNode.FindDataPath node.GetDataPath = some n ∧ n.QState = .ReadOnly) →
        (migrateCallback destRootNode node).1 =
          some (revertCall (visitOf (migrateCallback destRootNode) node)))) := by
  unfold migrateCallback revertCall visitOf
  refine ⟨fun h => ?_, fun h => ⟨?_, ?_⟩⟩
  · have he : ("" : String).isEmpty = true := by decide
    simp [h, he]
  · rintro ⟨n, hn, hs⟩
    have he : node.GetDataPath.isEmpty = false := by
      cases hb : node.GetDataPath.isEmpty
      · rfl
      · exact absurd ((String.isEmpty_iff _).mp hb) h
    simp [he, hn, hs]
  · have he : node.GetDataPath.isEmpty = false := by
      cases hb : node.GetDataPath.isEmpty
      · rfl
      · exact absurd ((String.isEmpty_iff _).mp hb) h
    rintro (hn | ⟨n, hn, hs⟩)
    · cases hp : node.QHasDataParent <;> simp [he, hn, hp]
    · cases hp : node.QHasDataParent <;> simp [he, hn, hs, hp]

/-- C8 as stated fails: `Layers` is found in the processed destination tree (as a read-only
node), yet the callback calls `SetValue` on it with its data parent's value 7, and its value
changes from 5 to 7. -/
theorem MigrateShaderModelProperties_reverts_found_read_only :
    (readOnlyDestTree.FindDataPath "Layers").isSome = true ∧
    (MigrateShaderModelProperties sourceTree readOnlyDestTree).2 =
      [{ dataPath := "", QHasDataParent := false, parentValue := 0, defaultValue := 0,
         call := none },
       { dataPath := "Layers", QHasDataParent := true, parentValue := 7, defaultValue := 0,
         call := some (.SetValue 7) },
       { dataPath := "Opacity", QHasDataParent := false, parentValue := 0, defaultValue := 0,
         call := none }] ∧
    ¬ (∀ v ∈ (MigrateShaderModelProperties sourceTree readOnlyDestTree).2, v.dataPath ≠ "" →
        (readOnlyDestTree.FindDataPath v.dataPath).isSome = true → v.call = none) := by
  refine ⟨by decide, by decide, ?_⟩
  intro h
  have := h { dataPath := "Layers", QHasDataParent := true, parentValue := 7, defaultValue := 0,
              call := some (.SetValue 7) } (by decide) (by decide) (by decide)
  exact absurd this (by decide)

/-- C8, amended: for every node the traversal visits, the root (empty data path) is not
written; a node with a non-empty data path is left intact when a node with the same data path
is found in the processed destination tree and is not read-only; and it is reverted, to its
data parent's value or to its type's default value when it has no data parent, when the data
path is not found or the node found is read-only. -/
theorem MigrateShaderModelProperties_visits (arMaterialPropertyEditorRootNode
    destRootNode : ModelNode) (v : Visit)
    (hv : v ∈ (MigrateShaderModelProperties arMaterialPropertyEditorRootNode destRootNode).2) :
    (v.dataPath = "" → v.call = none) ∧
    (v.dataPath ≠ "" →
      ((∃ n, destRootNode.FindDataPath v.dataPath = some n ∧ n.QState ≠ .ReadOnly) →
        v.call = none) ∧
      ((destRootNode.FindDataPath v.dataPath = none ∨
        ∃ n, destRootNode.FindDataPath v.dataPath = some n ∧ n.QState = .ReadOnly) →
        v.call = some (revertCall v))) := by
  obtain ⟨n, rfl⟩ := ModelNode.ForEach_log (migrateCallback destRootNode)
    arMaterialPropertyEditorRootNode v hv
  exact migrateCallback_spec destRootNode n

/-- Witness of the amended C8: `Layers` of `sourceTree` is visited, its data path is found
read-only in `readOnlyDestTree`, and it is reverted to its data parent's value. -/
theorem MigrateShaderModelProperties_visits_witness :
    layersVisit ∈ (MigrateShaderModelProperties sourceTree readOnlyDestTree).2 ∧
    layersVisit.call = some (revertCall layersVisit) :=
  ⟨by decide,
   ((MigrateShaderModelProperties_visits sourceTree readOnlyDestTree layersVisit
      (by decide)).2 (by decide)).2
     (Or.inr ⟨.mk "Layers" .ReadOnly true 0 0 0 [], rfl, rfl⟩)⟩

/-! ### PromptToSaveChanges -/

/-- C9, failing inputs: material 1 is named `foo` and stored in `Data\Materials\foo.mat`; it is
renamed to `bar` and the rename is cancelled after the save under the new file (without version
control the old file cannot be deleted; with version control the check-in is cancelled).  The
material is saved back under its old file path, but it is renamed to `foo.mat`, the file name
of the old path, and not to the name `foo` it had before. -/
theorem Rename_cancel_restores_file_name :
    renameWorld.name 1 = "foo" ∧
    SplitPath "Data\\Materials\\foo.mat" = ("Data\\Materials", "foo.mat") ∧
    Rename renameWorld "Data\\Materials\\foo.mat" .Yes none [some "bar"] =
      [Event.getText "foo",
       Event.RenameAll 1 "bar",
       Event.SaveAs 1 "Data\\Materials\\bar.mat",
       Event.BSDeleteFile "Data\\Materials\\foo.mat",
       Event.warning "Unable to rename file. Make sure that it is not read only",
       Event.RenameAll 1 "foo.mat",
       Event.SaveAs 1 "Data\\Materials\\foo.mat",
       Event.BSDeleteFile "Data\\Materials\\bar.mat",
       Event.Flush,
       Event.browserRefresh] ∧
    Rename renameCheckinCancelledWorld "Data\\Materials\\foo.mat" .Yes none [some "bar"] =
      [Event.getText "foo",
       Event.RenameAll 1 "bar",
       Event.SaveAs 1 "Data\\Materials\\bar.mat",
       Event.RevertFile "Data\\Materials\\foo.mat",
       Event.MarkForDelete "Data\\Materials\\foo.mat",
       Event.AddFile "Data\\Materials\\bar.mat",
       Event.CheckinFiles ["Data\\Materials\\foo.mat", "Data\\Materials\\bar.mat"],
       Event.RevertFile "Data\\Materials\\foo.mat",
       Event.RenameAll 1 "foo.mat",
       Event.SaveAs 1 "Data\\Materials\\foo.mat",
       Event.RevertFile "Data\\Materials\\bar.mat",
       Event.BSDeleteFile "Data\\Materials\\bar.mat",
       Event.Flush,
       Event.browserRefresh] := by
  decide

/-! ### Open and Close -/

/-- What `UpdateButtonState` keeps and what it sets: the edited materials, the modified flag,
the shader-model state and the Perforce services are kept; the sync button is enabled exactly
when Perforce is available, the depot is mapped and a material is edited. -/
theorem UpdateButtonState_fields (d : DialogState) :
    (UpdateButtonState d).w.EditedMaterialID = d.w.EditedMaterialID ∧
    (UpdateButtonState d).EditedSubMaterial = d.EditedSubMaterial ∧
    (UpdateButtonState d).w.EditedMaterialIsModified = d.w.EditedMaterialIsModified ∧
    (UpdateButtonState d).MaterialSMState = d.MaterialSMState ∧
    (UpdateButtonState d).w.QPerforceAvailable = d.w.QPerforceAvailable ∧
    (UpdateButtonState d).w.SourceTextureDepotPathValid = d.w.SourceTextureDepotPathValid ∧
    (UpdateButtonState d).syncTexturesButton =
      ((d.w.QPerforceAvailable && d.w.SourceTextureDepotPathValid) &&
        QValid d.w.EditedMaterialID) := by
  unfold UpdateButtonState
  dsimp only
  split
  · split <;> simp
  · simp

/-- What `BuildPropertyEditor` keeps and what it sets. -/
theorem BuildPropertyEditor_fields (d : DialogState) :
    (BuildPropertyEditor d).w.EditedMaterialID = d.w.EditedMaterialID ∧
    (BuildPropertyEditor d).EditedSubMaterial = d.EditedSubMaterial ∧
    (BuildPropertyEditor d).w.QPerforceAvailable = d.w.QPerforceAvailable ∧
    (BuildPropertyEditor d).w.SourceTextureDepotPathValid = d.w.SourceTextureDepotPathValid ∧
    (BuildPropertyEditor d).syncTexturesButton =
      ((d.w.QPerforceAvailable && d.w.SourceTextureDepotPathValid) &&
        QValid d.w.EditedMaterialID) := by
  unfold BuildPropertyEditor
  dsimp only
  obtain ⟨h1, h2, -, -, h5, h6, h7⟩ := UpdateButtonState_fields
    (UpdateMaterialShaderModelState (UpdateDocumentModified (UpdateLODCombo
      (if (!d.w.IsShaderModelRootMaterial d.EditedSubMaterial &&
          !(d.w.shaderModelFileName d.EditedSubMaterial).isEmpty) = true then
        ApplyShaderModel { d with processors := [], calls := d.calls ++ [Event.Flush] }
          (d.w.shaderModelFileName d.EditedSubMaterial)
       else { d with processors := [], calls := d.calls ++ [Event.Flush] }))))
  rw [h1, h2, h5, h6, h7]
  unfold UpdateMaterialShaderModelState UpdateDocumentModified UpdateLODCombo ApplyShaderModel
  dsimp only
  split <;> split <;> (try split) <;> simp

/-- C11: `Open(aMaterial)` returns true if and only if `aMaterial` is a valid material id; on
return the undo stack is empty in every case; and when `aMaterial` is valid, on return
`EditedMaterialID` and `EditedSubMaterial` are both `aMaterial`. -/
theorem Open_result (dlg : Dialog) (aMaterial : ID) :
    ((Open dlg aMaterial).1 = true ↔ QValid aMaterial = true) ∧
    (Open dlg aMaterial).2.pUndoRedoStack.commands = [] ∧
    (Open dlg aMaterial).2.pUndoRedoStack.index = 0 ∧
    (QValid aMaterial = true →
      (Open dlg aMaterial).2.state.w.EditedMaterialID = aMaterial ∧
      (Open dlg aMaterial).2.state.EditedSubMaterial = aMaterial) := by
  unfold Open
  dsimp only
  by_cases hv : QValid aMaterial = true
  · simp only [hv, if_true, true_iff, QUndoStack.clear, true_and, forall_true_left]
    obtain ⟨h1, h2, -⟩ := BuildPropertyEditor_fields
      (UpdateLODCombo { dlg.state with
        w := { dlg.state.w with EditedMaterialID := aMaterial }
        EditedSubMaterial := aMaterial })
    rw [h1, h2]
    exact ⟨rfl, rfl⟩
  · simp [hv, QUndoStack.clear]

/-- Witness of C11: material 1 is valid, and `Open` on a new dialog returns true with
material 1 edited. -/
theorem Open_result_witness :
    (Open perforceDialog 1).2.state.w.EditedMaterialID = 1 ∧
    (Open perforceDialog 1).2.state.EditedSubMaterial = 1 :=
  (Open_result perforceDialog 1).2.2.2 (by decide)

/-- When no material is being edited `Close` does nothing. -/
theorem Close_of_invalid (d : DialogState) (hv : QValid d.w.EditedMaterialID = false) :
    Close d = d := by
  simp [Close, hv]

/-- C12: when a material is being edited, after `Close` the edited material and sub material
are invalid, `EditedMaterialIsModified` is false and `MaterialSMState` is all zero, so that
`CanAddLayer` and `CanRemoveLayer` are false; when no material is being edited `Close` leaves
the dialog as it is; and `Close` after `Close` is a single `Close`. -/
theorem Close_result (d : DialogState) :
    (QValid d.w.EditedMaterialID = true →
      QValid (Close d).w.EditedMaterialID = false ∧
      QValid (Close d).EditedSubMaterial = false ∧
      (Close d).w.EditedMaterialIsModified = false ∧
      (Close d).MaterialSMState = { LayersInUse := 0, LayerCount := 0, BlenderCount := 0 } ∧
      CanAddLayer (Close d) = false ∧
      CanRemoveLayer (Close d) = false) ∧
    (QValid d.w.EditedMaterialID = false → Close d = d) ∧
    Close (Close d) = Close d := by
  have hvalid : QValid d.w.EditedMaterialID = true →
      QValid (Close d).w.EditedMaterialID = false ∧
      QValid (Close d).EditedSubMaterial = false ∧
      (Close d).w.EditedMaterialIsModified = false ∧
      (Close d).MaterialSMState = { LayersInUse := 0, LayerCount := 0, BlenderCount := 0 } ∧
      CanAddLayer (Close d) = false ∧
      CanRemoveLayer (Close d) = false := by
    intro hv
    unfold CanAddLayer CanRemoveLayer Close
    simp only [hv, if_true]
    generalize hd : (if (!EditedFileExists d.w) = true then
        { d with calls := d.calls ++ [Event.RequestDestroyFileObjects d.w.EditedMaterialID] }
      else d) = d1
    obtain ⟨h1, h2, h3, h4, -⟩ := UpdateButtonState_fields
      { UpdateDocumentModified
          { d1 with w := { d1.w with EditedMaterialID := NullIDC }, EditedSubMaterial := NullIDC }
        with MaterialSMState := { LayersInUse := 0, LayerCount := 0, BlenderCount := 0 } }
    rw [h1, h2, h3, h4]
    simp [UpdateDocumentModified, QValid, NullIDC]
  have hinvalid : QValid d.w.EditedMaterialID = false → Close d = d := Close_of_invalid d
  refine ⟨hvalid, hinvalid, ?_⟩
  by_cases hv : QValid d.w.EditedMaterialID = true
  · exact Close_of_invalid (Close d) (hvalid hv).1
  · have hv2 : QValid d.w.EditedMaterialID = false := by simpa using hv
    rw [hinvalid hv2, hinvalid hv2]

/-- Witness of C12: material 1 is being edited in the dialog after `Open 1`, and after `Close`
no material is edited. -/
theorem Close_result_witness :
    QValid (Close (Open perforceDialog 1).2.state).w.EditedMaterialID = false ∧
    QValid (Close (Open perforceDialog 1).2.state).EditedSubMaterial = false ∧
    (Close (Open perforceDialog 1).2.state).w.EditedMaterialIsModified = false ∧
    (Close (Open perforceDialog 1).2.state).MaterialSMState
      = { LayersInUse := 0, LayerCount := 0, BlenderCount := 0 } ∧
    CanAddLayer (Close (Open perforceDialog 1).2.state) = false ∧
    CanRemoveLayer (Close (Open perforceDialog 1).2.state) = false :=
  (Close_result (Open perforceDialog 1).2.state).1 (by decide)

/-! ### Undo commands -/

/-- C13: `undo()` of a command is one call of the undo callback given at construction, with
the stored data pointer, and `redo()` is one call of the redo callback with the same pointer;
with callbacks that record their invocations, `undo()` records the undo callback only and
`redo()` the redo callback only; and the command `MakeNewUndoCommand` creates has its first
callback as undo action and its second as redo action. -/
theorem MaterialLayeringUndoCommand_runs_stored_callback {σ : Type}
    (aUndoAction aRedoAction : UndoCallback σ) (apData : VoidPtr)
    (pUndoRedoStack : QUndoStack σ) (s : σ) (invocations : List (CallbackKind × VoidPtr))
    (recordingStack : QUndoStack (List (CallbackKind × VoidPtr))) :
    (MaterialLayeringUndoCommand.new aUndoAction aRedoAction apData).undo s
      = aUndoAction apData s ∧
    (MaterialLayeringUndoCommand.new aUndoAction aRedoAction apData).redo s
      = aRedoAction apData s ∧
    (MaterialLayeringUndoCommand.new (recordingCallback .undoCallback)
        (recordingCallback .redoCallback) apData).undo invocations
      = invocations ++ [(.undoCallback, apData)] ∧
    (MaterialLayeringUndoCommand.new (recordingCallback .undoCallback)
        (recordingCallback .redoCallback) apData).redo invocations
      = invocations ++ [(.redoCallback, apData)] ∧
    (MakeNewUndoCommand pUndoRedoStack aUndoAction aRedoAction apData s).1.UndoAction
      = aUndoAction ∧
    (MakeNewUndoCommand pUndoRedoStack aUndoAction aRedoAction apData s).1.RedoAction
      = aRedoAction ∧
    (MakeNewUndoCommand pUndoRedoStack aUndoAction aRedoAction apData s).1.pData = apData ∧
    (MakeNewUndoCommand recordingStack (recordingCallback .undoCallback)
        (recordingCallback .redoCallback) apData invocations).1.undo invocations
      = invocations ++ [(.undoCallback, apData)] ∧
    (MakeNewUndoCommand recordingStack (recordingCallback .undoCallback)
        (recordingCallback .redoCallback) apData invocations).1.redo invocations
      = invocations ++ [(.redoCallback, apData)] :=
  ⟨rfl, rfl, rfl, rfl, rfl, rfl, rfl, rfl, rfl⟩

/-! ### Texture sync -/

/-- Support for C14: a refresh of the property editor sets the state of the sync button from
the Perforce services and the edited material alone; the state `OnSyncTextures` gave it is
overwritten. -/
theorem OnRefreshPropertyEditor_syncTexturesButton (d : DialogState) :
    (OnRefreshPropertyEditor d).syncTexturesButton =
      ((d.w.QPerforceAvailable && d.w.SourceTextureDepotPathValid) &&
        QValid d.w.EditedMaterialID) := by
  unfold OnRefreshPropertyEditor
  exact (BuildPropertyEditor_fields d).2.2.2.2

/-- C14, failing input: Perforce is available and the depot is mapped.  After `Open(1)` the
sync button is enabled; `OnSyncTextures` disables it and submits the job; before
`OnSyncTexturesFinished` runs, a refresh of the property editor, or `Open(2)`, enables the
button again.  So it is false that the button is disabled in every state between the two. -/
theorem syncTexturesButton_enabled_during_sync :
    (perforceDialog.run [.Open 1]).state.syncTexturesButton = true ∧
    (perforceDialog.run [.Open 1, .OnSyncTextures]).state.syncTexturesButton = false ∧
    (perforceDialog.run [.Open 1, .OnSyncTextures]).state.submittedJobs = [["wood.dds"]] ∧
    (perforceDialog.run [.Open 1, .OnSyncTextures, .OnRefreshPropertyEditor]).state.syncTexturesButton
      = true ∧
    (perforceDialog.run [.Open 1, .OnSyncTextures, .Open 2]).state.syncTexturesButton = true ∧
    ¬ (∀ (dlg : Dialog) (ops : List DialogOp),
        (∀ op ∈ ops, op ≠ .OnSyncTextures ∧ op ≠ .OnSyncTexturesFinished) →
        ((dlg.step .OnSyncTextures).run ops).state.syncTexturesButton = false) := by
  refine ⟨by decide, by decide, by decide, by decide, by decide, ?_⟩
  intro h
  have := h (perforceDialog.run [.Open 1]) [.OnRefreshPropertyEditor] (by decide)
  exact absurd this (by decide)

end MaterialLayering
